import Mathlib

/-!
# Hash-table seed initialisation (jansson 2.7, `hashtable_seed.c`)

A shallow embedding of `src/tools/jansson-2.7/src/hashtable_seed.c`:

* the entropy chain `buf_to_uint32`, `seed_from_urandom`,
  `seed_from_timestamp_and_pid`, `generate_seed`;
* the three build variants of `json_object_seed`
  (`HAVE_ATOMIC_BUILTINS`, `HAVE_SYNC_BUILTINS`, thread-unsafe fallback).

`uint32_t` values are natural numbers kept below `2 ^ 32` by explicit
reduction.  Preprocessor conditions are fields of `Config`; everything the
operating system answers during one call of `generate_seed` is a field of
`Env`.  The two thread-safe variants are small-step machines in which every
access to a shared variable is one atomic step of one thread.
-/

namespace HashtableSeed

/-! ## Build configuration and operating-system answers -/

/-- Preprocessor conditions that select code in the entropy chain. -/
structure Config where
  /-- Condition `!defined(_WIN32) && defined(USE_URANDOM)`. -/
  USE_URANDOM : Bool
  /-- Condition `defined(HAVE_OPEN) && defined(HAVE_CLOSE) && defined(HAVE_READ)`. -/
  HAVE_OPEN_CLOSE_READ : Bool
  /-- Condition `defined(HAVE_GETTIMEOFDAY)`. -/
  HAVE_GETTIMEOFDAY : Bool
  /-- Condition `defined(HAVE_GETPID)`. -/
  HAVE_GETPID : Bool

/-- Answers of the operating system during one call of `generate_seed`. -/
structure Env where
  /-- Result of `open("/dev/urandom", O_RDONLY)`; `-1` is failure. -/
  open_ret : Int
  /-- Result of `read(urandom, data, 4)` (a byte count, or `-1`). -/
  read_ret : Int
  /-- Result of `fopen("/dev/urandom", "rb")` as an address; `0` is `NULL`. -/
  fopen_ret : Nat
  /-- Result of `fread(data, 1, 4, urandom)`. -/
  fread_ret : Nat
  /-- Contents of `char data[4]` after the read: `data i` is `data[i]`, a
  `char` (signed or unsigned), bytes not delivered keep whatever they held. -/
  data : Nat → Int
  /-- Field `tv_sec` filled in by `gettimeofday`. -/
  tv_sec : Int
  /-- Field `tv_usec` filled in by `gettimeofday`. -/
  tv_usec : Int
  /-- Result of `time(NULL)`. -/
  time_ret : Int
  /-- Result of `getpid()`. -/
  pid : Int
  /-- Indeterminate initial content of the local `uint32_t seed` of
  `generate_seed`, which is declared without an initialiser. -/
  uninit_seed : Nat

/-- Number of values of `uint32_t`. -/
def UINT32_MOD : Nat := 2 ^ 32

/-- The cast `(uint32_t)x` of a signed integer. -/
def to_uint32 (x : Int) : Nat := (x % (2 ^ 32 : Int)).toNat

/-- The cast `(unsigned char)c` of a `char`. -/
def to_uchar (c : Int) : Nat := (c % 256).toNat

/-- The value of `sizeof(uint32_t)`. -/
def sizeof_uint32 : Nat := 4

/-! ## The entropy chain -/

/-- Source lines 59-67.  The loop `for (i = 0; i < sizeof(uint32_t); i++)`
runs over `i = 0, 1, 2, 3`; its body is
`result = (result << 8) | (unsigned char)data[i]` on a `uint32_t`. -/
def buf_to_uint32 (data : Nat → Int) : Nat :=
  (List.range sizeof_uint32).foldl
    (fun result i => ((result <<< 8) % UINT32_MOD) ||| to_uchar (data i)) 0

/-- Source lines 73-104.  The result is the returned `int` together with the
content of `*seed` afterwards; `seed` is the content of `*seed` before.
The comparison `read(...) == sizeof(uint32_t)` converts the `ssize_t` to
`size_t`, so it holds exactly when the count is `4`. -/
def seed_from_urandom (cfg : Config) (env : Env) (seed : Nat) : Int × Nat :=
  if cfg.HAVE_OPEN_CLOSE_READ then
    if env.open_ret = -1 then (1, seed)
    else
      let ok : Bool := decide (env.read_ret = 4)
      if !ok then (1, seed)
      else (0, buf_to_uint32 env.data)
  else
    if env.fopen_ret = 0 then (1, seed)
    else
      let ok : Bool := decide (env.fread_ret = 4)
      if !ok then (1, seed)
      else (0, buf_to_uint32 env.data)

/-- Source lines 110-127.  The result is the returned `int` together with the
content of `*seed` afterwards. -/
def seed_from_timestamp_and_pid (cfg : Config) (env : Env) (_seed : Nat) : Int × Nat :=
  let seed : Nat :=
    if cfg.HAVE_GETTIMEOFDAY then to_uint32 env.tv_sec ^^^ to_uint32 env.tv_usec
    else to_uint32 env.time_ret
  let seed : Nat :=
    if cfg.HAVE_GETPID then seed ^^^ to_uint32 env.pid
    else seed
  (0, seed)

/-- Source lines 130-143: the content of the local `seed` of `generate_seed`
when control reaches the zero test of line 146, that is, what the selected
tier produced. -/
def selected_tier (cfg : Config) (env : Env) : Nat :=
  let seed : Nat := env.uninit_seed
  let done : Nat := 0
  let r : Nat × Nat :=
    if cfg.USE_URANDOM then
      -- line 134: if (!done && seed_from_urandom(&seed) == 0) done = 1;
      if done = 0 then
        let u := seed_from_urandom cfg env seed
        if u.1 = 0 then (u.2, 1) else (u.2, done)
      else (seed, done)
    else (seed, done)
  if r.2 = 0 then (seed_from_timestamp_and_pid cfg env r.1).2 else r.1

/-- Source lines 129-150. -/
def generate_seed (cfg : Config) (env : Env) : Nat :=
  let seed : Nat := env.uninit_seed
  let done : Nat := 0
  let r : Nat × Nat :=
    if cfg.USE_URANDOM then
      -- line 134: if (!done && seed_from_urandom(&seed) == 0) done = 1;
      if done = 0 then
        let u := seed_from_urandom cfg env seed
        if u.1 = 0 then (u.2, 1) else (u.2, done)
      else (seed, done)
    else (seed, done)
  let seed : Nat :=
    if r.2 = 0 then (seed_from_timestamp_and_pid cfg env r.1).2 else r.1
  let seed : Nat := if seed = 0 then 1 else seed
  seed

/-- A build with every facility present (Linux). -/
def cfgFull : Config := ⟨true, true, true, true⟩

/-- The device delivers the bytes `01 02 03 04`; clock and pid are arbitrary. -/
def envBytes : Env :=
  { open_ret := 3, read_ret := 4, fopen_ret := 1, fread_ret := 4,
    data := fun i => match i with
      | 0 => 1
      | 1 => 2
      | 2 => 3
      | _ => 4,
    tv_sec := 1700000000, tv_usec := 123456, time_ret := 1700000000, pid := 4242,
    uninit_seed := 77 }

/-- The device cannot be opened. -/
def envNoDevice : Env :=
  { envBytes with open_ret := -1, fopen_ret := 0 }

/-- The read is short: two bytes arrive, the rest of the buffer is stale. -/
def envShort : Env :=
  { envBytes with read_ret := 2, fread_ret := 2 }

/-- A byte stream whose big-endian value is given by four bytes. -/
def bytes4 (b0 b1 b2 b3 : Int) : Nat → Int := fun i =>
  match i with
  | 0 => b0
  | 1 => b1
  | 2 => b2
  | _ => b3

/-- The device delivers the bytes `00 00 00 01`. -/
def envOne : Env :=
  { envBytes with data := bytes4 0 0 0 1 }

/-- The device delivers four zero bytes. -/
def envZero : Env :=
  { envBytes with data := bytes4 0 0 0 0 }

/-- A build with the device and `getpid` but without `gettimeofday`. -/
def cfgNoClock : Config := ⟨true, true, false, true⟩

/-- A build with the device and `gettimeofday` but without `getpid`. -/
def cfgNoPid : Config := ⟨true, true, true, false⟩

/-- A build with the device but without `gettimeofday` and `getpid`. -/
def cfgNoClockNoPid : Config := ⟨true, true, false, false⟩

/-- The device cannot be opened; the clock reads 1 second and 2 microseconds
(so `time(NULL)` is 1 as well) and the process id is 4. -/
def envWeak : Env :=
  { envBytes with open_ret := -1, fopen_ret := 0,
                  tv_sec := 1, tv_usec := 2, time_ret := 1, pid := 4 }

/-! ## Shared state -/

/-- The shared variables of the translation unit, and counters that record
what an execution did (the counters are never read by the program). -/
structure Shared where
  /-- Variable `volatile uint32_t hashtable_seed` (line 153). -/
  hashtable_seed : Nat
  /-- Variable `static volatile char seed_initialized` (line 156); it exists
  in the `HAVE_ATOMIC_BUILTINS` build only and no other variant accesses it. -/
  seed_initialized : Nat
  /-- Counter: calls of `generate_seed`. -/
  gen_calls : Nat
  /-- Counter: writes to `hashtable_seed` (plain store, atomic store or
  successful compare-and-swap). -/
  seed_writes : Nat
  /-- Counter: executions of `__atomic_test_and_set` that returned `0`. -/
  tas_wins : Nat
  /-- Counter: executions of `__sync_bool_compare_and_swap` that succeeded. -/
  cas_wins : Nat
  /-- Counter: entries into a waiting branch (the `else` of line 168, or the
  `else` of line 195). -/
  waits : Nat
deriving DecidableEq

/-- State at program start: `hashtable_seed = 0`, `seed_initialized = 0`. -/
def Shared.init : Shared := ⟨0, 0, 0, 0, 0, 0, 0⟩

/-- One scheduling decision: the thread that performs its next atomic step,
the argument it passes if this step starts a call of `json_object_seed`, and
what the operating system answers if this step runs `generate_seed`. -/
structure Label where
  /-- Index of the thread that moves. -/
  tid : Nat
  /-- Argument `size_t seed` of the call, when the step starts one. -/
  seed : Nat
  /-- Operating-system answers, when the step calls `generate_seed`. -/
  env : Env

/-- Replace the local state of thread `i`. -/
def setThread {T : Type} (threads : Nat → T) (i : Nat) (t : T) : Nat → T :=
  fun j => if j = i then t else threads j

/-! ## Strategy A: `HAVE_ATOMIC_BUILTINS` (lines 155-177) -/

/-- Control points of a thread in the `HAVE_ATOMIC_BUILTINS` variant. -/
inductive PcA where
  /-- Outside `json_object_seed`; the next step enters it and evaluates
  `hashtable_seed == 0` (lines 159, 161). -/
  | idle
  /-- Before `__atomic_test_and_set` (line 162). -/
  | tas
  /-- Before `new_seed = generate_seed()` (line 165). -/
  | gen
  /-- Before `__atomic_store_n` (line 167). -/
  | store
  /-- Inside the `do ... while` of lines 170-174, before `__atomic_load_n`. -/
  | wait
deriving DecidableEq

/-- Local state of a thread in the `HAVE_ATOMIC_BUILTINS` variant. -/
structure ThreadA where
  /-- Control point. -/
  pc : PcA
  /-- Local `uint32_t new_seed`. -/
  new_seed : Nat
  /-- Counter: calls of `json_object_seed` by this thread that have returned. -/
  returned : Nat
deriving DecidableEq

/-- Global state of the `HAVE_ATOMIC_BUILTINS` variant. -/
structure StateA where
  /-- Shared variables. -/
  g : Shared
  /-- Local state of every thread. -/
  threads : Nat → ThreadA

/-- A thread that has not called `json_object_seed` yet. -/
def ThreadA.start : ThreadA := ⟨PcA.idle, 0, 0⟩

/-- Program start for the `HAVE_ATOMIC_BUILTINS` variant. -/
def StateA.init : StateA := ⟨Shared.init, fun _ => ThreadA.start⟩

/-- One atomic step of thread `l.tid` in the `HAVE_ATOMIC_BUILTINS` variant of
`json_object_seed` (lines 158-177), with `N` threads. -/
def json_object_seed_A_step (cfg : Config) (N : Nat) (s : StateA) (l : Label) : StateA :=
  if l.tid < N then
    let t := s.threads l.tid
    match t.pc with
    | PcA.idle =>
      -- line 159: new_seed = (uint32_t)seed; line 161: hashtable_seed == 0
      let new_seed := l.seed % UINT32_MOD
      if s.g.hashtable_seed = 0 then
        { s with
          threads := setThread s.threads l.tid
            { t with pc := PcA.tas, new_seed := new_seed } }
      else
        { s with
          threads := setThread s.threads l.tid
            { pc := PcA.idle, new_seed := new_seed, returned := t.returned + 1 } }
    | PcA.tas =>
      -- line 162: __atomic_test_and_set(&seed_initialized, ...) == 0
      if s.g.seed_initialized = 0 then
        -- line 164: if (new_seed == 0)
        { g := { s.g with seed_initialized := 1, tas_wins := s.g.tas_wins + 1 },
          threads := setThread s.threads l.tid
            { t with pc := if t.new_seed = 0 then PcA.gen else PcA.store } }
      else
        { g := { s.g with seed_initialized := 1, waits := s.g.waits + 1 },
          threads := setThread s.threads l.tid { t with pc := PcA.wait } }
    | PcA.gen =>
      -- line 165: new_seed = generate_seed()
      { g := { s.g with gen_calls := s.g.gen_calls + 1 },
        threads := setThread s.threads l.tid
          { t with pc := PcA.store, new_seed := generate_seed cfg l.env } }
    | PcA.store =>
      -- line 167: __atomic_store_n(&hashtable_seed, new_seed, ...), then return
      { g := { s.g with hashtable_seed := t.new_seed, seed_writes := s.g.seed_writes + 1 },
        threads := setThread s.threads l.tid
          { t with pc := PcA.idle, returned := t.returned + 1 } }
    | PcA.wait =>
      -- lines 170-174: do { sched_yield(); } while (__atomic_load_n(...) == 0)
      if s.g.hashtable_seed = 0 then s
      else
        { s with
          threads := setThread s.threads l.tid
            { t with pc := PcA.idle, returned := t.returned + 1 } }
  else s

/-- Run a schedule in the `HAVE_ATOMIC_BUILTINS` variant. -/
def runA (cfg : Config) (N : Nat) (s : StateA) (sched : List Label) : StateA :=
  sched.foldl (json_object_seed_A_step cfg N) s

/-- Steps of one thread running alone until its call returns; `none` when the
call has not returned within `fuel` steps. -/
def json_object_seed_A_loop (cfg : Config) (l : Label) : Nat → StateA → Option Shared
  | 0, _ => none
  | fuel + 1, s =>
    let s1 := json_object_seed_A_step cfg 1 s l
    if (s1.threads 0).returned = 0 then json_object_seed_A_loop cfg l fuel s1
    else some s1.g

/-- One call `json_object_seed(seed)` of the `HAVE_ATOMIC_BUILTINS` variant
made by a single thread while no other thread runs, from shared state `g`. -/
def json_object_seed_A (cfg : Config) (fuel : Nat) (g : Shared) (seed : Nat) (env : Env) :
    Option Shared :=
  json_object_seed_A_loop cfg ⟨0, seed, env⟩ fuel ⟨g, fun _ => ThreadA.start⟩

/-! ## Strategy B: `HAVE_SYNC_BUILTINS` (lines 178-203) -/

/-- Control points of a thread in the `HAVE_SYNC_BUILTINS` variant. -/
inductive PcB where
  /-- Outside `json_object_seed`; the next step enters it and evaluates
  `hashtable_seed == 0` (lines 180, 182). -/
  | idle
  /-- Before `new_seed = generate_seed()` (line 188). -/
  | gen
  /-- Before `__sync_bool_compare_and_swap` (line 192). -/
  | cas
  /-- Before the loop test `hashtable_seed == 0` (line 201). -/
  | recheck
deriving DecidableEq

/-- Local state of a thread in the `HAVE_SYNC_BUILTINS` variant. -/
structure ThreadB where
  /-- Control point. -/
  pc : PcB
  /-- Parameter `size_t seed` of the current call. -/
  seed : Nat
  /-- Local `uint32_t new_seed`. -/
  new_seed : Nat
  /-- Record: the operating-system answers seen by `generate_seed`, when the
  current call has run it. -/
  gen_env : Option Env
  /-- Counter: calls of `json_object_seed` by this thread that have returned. -/
  returned : Nat

/-- Global state of the `HAVE_SYNC_BUILTINS` variant. -/
structure StateB where
  /-- Shared variables. -/
  g : Shared
  /-- Local state of every thread. -/
  threads : Nat → ThreadB
  /-- Record: for every successful compare-and-swap, the thread and its local
  state at that moment (latest first). -/
  cas_log : List (Nat × ThreadB)

/-- A thread that has not called `json_object_seed` yet. -/
def ThreadB.start : ThreadB := ⟨PcB.idle, 0, 0, none, 0⟩

/-- Program start for the `HAVE_SYNC_BUILTINS` variant. -/
def StateB.init : StateB := ⟨Shared.init, fun _ => ThreadB.start, []⟩

/-- One atomic step of thread `l.tid` in the `HAVE_SYNC_BUILTINS` variant of
`json_object_seed` (lines 179-203), with `N` threads. -/
def json_object_seed_B_step (cfg : Config) (N : Nat) (s : StateB) (l : Label) : StateB :=
  if l.tid < N then
    let t := s.threads l.tid
    match t.pc with
    | PcB.idle =>
      -- line 180: new_seed = (uint32_t)seed; line 182: hashtable_seed == 0
      let new_seed := l.seed % UINT32_MOD
      if s.g.hashtable_seed = 0 then
        -- line 183: if (new_seed == 0)
        { s with
          threads := setThread s.threads l.tid
            { pc := if new_seed = 0 then PcB.gen else PcB.cas, seed := l.seed,
              new_seed := new_seed, gen_env := none, returned := t.returned } }
      else
        { s with
          threads := setThread s.threads l.tid
            { pc := PcB.idle, seed := l.seed, new_seed := new_seed, gen_env := none,
              returned := t.returned + 1 } }
    | PcB.gen =>
      -- line 188: new_seed = generate_seed()
      { s with
        g := { s.g with gen_calls := s.g.gen_calls + 1 },
        threads := setThread s.threads l.tid
          { t with pc := PcB.cas, new_seed := generate_seed cfg l.env, gen_env := some l.env } }
    | PcB.cas =>
      -- line 192: __sync_bool_compare_and_swap(&hashtable_seed, 0, new_seed)
      if s.g.hashtable_seed = 0 then
        -- line 194: break, then return
        { g := { s.g with hashtable_seed := t.new_seed, seed_writes := s.g.seed_writes + 1,
                          cas_wins := s.g.cas_wins + 1 },
          threads := setThread s.threads l.tid
            { t with pc := PcB.idle, returned := t.returned + 1 },
          cas_log := (l.tid, t) :: s.cas_log }
      else
        -- line 198: sched_yield()
        { s with
          g := { s.g with waits := s.g.waits + 1 },
          threads := setThread s.threads l.tid { t with pc := PcB.recheck } }
    | PcB.recheck =>
      -- line 201: while (hashtable_seed == 0)
      if s.g.hashtable_seed = 0 then
        { s with threads := setThread s.threads l.tid { t with pc := PcB.cas } }
      else
        { s with
          threads := setThread s.threads l.tid
            { t with pc := PcB.idle, returned := t.returned + 1 } }
  else s

/-- Run a schedule in the `HAVE_SYNC_BUILTINS` variant. -/
def runB (cfg : Config) (N : Nat) (s : StateB) (sched : List Label) : StateB :=
  sched.foldl (json_object_seed_B_step cfg N) s

/-- Steps of one thread running alone until its call returns; `none` when the
call has not returned within `fuel` steps. -/
def json_object_seed_B_loop (cfg : Config) (l : Label) : Nat → StateB → Option Shared
  | 0, _ => none
  | fuel + 1, s =>
    let s1 := json_object_seed_B_step cfg 1 s l
    if (s1.threads 0).returned = 0 then json_object_seed_B_loop cfg l fuel s1
    else some s1.g

/-- One call `json_object_seed(seed)` of the `HAVE_SYNC_BUILTINS` variant made
by a single thread while no other thread runs, from shared state `g`. -/
def json_object_seed_B (cfg : Config) (fuel : Nat) (g : Shared) (seed : Nat) (env : Env) :
    Option Shared :=
  json_object_seed_B_loop cfg ⟨0, seed, env⟩ fuel ⟨g, fun _ => ThreadB.start, []⟩

/-! ## Strategy C: thread-unsafe fallback (lines 205-215) -/

/-- One call `json_object_seed(seed)` of the thread-unsafe variant
(lines 206-215) from shared state `g`. -/
def json_object_seed_C (cfg : Config) (g : Shared) (seed : Nat) (env : Env) : Shared :=
  let new_seed : Nat := seed % UINT32_MOD
  if g.hashtable_seed = 0 then
    let r : Nat × Nat :=
      if new_seed = 0 then (generate_seed cfg env, g.gen_calls + 1)
      else (new_seed, g.gen_calls)
    { g with hashtable_seed := r.1, gen_calls := r.2, seed_writes := g.seed_writes + 1 }
  else g

/-! ## Sequences of calls made by one thread -/

/-- Calls of the `HAVE_ATOMIC_BUILTINS` variant one after the other, each with
its argument and its operating-system answers. -/
def seqA (cfg : Config) (fuel : Nat) : Shared → List (Nat × Env) → Option Shared
  | g, [] => some g
  | g, c :: rest =>
    match json_object_seed_A cfg fuel g c.1 c.2 with
    | none => none
    | some g1 => seqA cfg fuel g1 rest

/-- Calls of the `HAVE_SYNC_BUILTINS` variant one after the other. -/
def seqB (cfg : Config) (fuel : Nat) : Shared → List (Nat × Env) → Option Shared
  | g, [] => some g
  | g, c :: rest =>
    match json_object_seed_B cfg fuel g c.1 c.2 with
    | none => none
    | some g1 => seqB cfg fuel g1 rest

/-- Calls of the thread-unsafe variant one after the other. -/
def seqC (cfg : Config) : Shared → List (Nat × Env) → Shared
  | g, [] => g
  | g, c :: rest => seqC cfg (json_object_seed_C cfg g c.1 c.2) rest

/-- Agreement of the shared states of the three variants after the same
calls: same `hashtable_seed`, same number of `generate_seed` calls (at most
one), no entry into a waiting branch; while the seed is still `0` the guard of
the `HAVE_ATOMIC_BUILTINS` variant is unclaimed and nothing was generated. -/
def Agree (gA gB gC : Shared) : Prop :=
  gA.hashtable_seed = gC.hashtable_seed ∧ gB.hashtable_seed = gC.hashtable_seed ∧
  gA.gen_calls = gC.gen_calls ∧ gB.gen_calls = gC.gen_calls ∧ gC.gen_calls ≤ 1 ∧
  gA.waits = 0 ∧ gB.waits = 0 ∧
  (gC.hashtable_seed = 0 → gA.seed_initialized = 0 ∧ gC.gen_calls = 0)

/-! ## Invariants of the two machines -/

/-- Control points of the seeding branch (lines 163-167). -/
def critA (pc : PcA) : Prop := pc = PcA.gen ∨ pc = PcA.store

/-- The part of the `HAVE_ATOMIC_BUILTINS` invariant that speaks of the shared
variables only: at most one test-and-set has won, and it has won exactly when
the guard is claimed; before that nothing was written or generated; at most
one `generate_seed` call and one write; the seed is `0` exactly as long as it
was not written. -/
def GlobA (g : Shared) : Prop :=
  g.tas_wins ≤ 1 ∧ (g.seed_initialized = 0 → g.tas_wins = 0) ∧
  (g.seed_initialized ≠ 0 → g.tas_wins = 1) ∧
  (g.tas_wins = 0 → g.seed_writes = 0 ∧ g.gen_calls = 0) ∧
  g.gen_calls ≤ 1 ∧ g.seed_writes ≤ 1 ∧
  (g.seed_writes = 0 ↔ g.hashtable_seed = 0)

/-- The part of the `HAVE_ATOMIC_BUILTINS` invariant that speaks of one thread:
before the guard is claimed the thread is outside the function or before the
test-and-set; while it is in the seeding branch the seed is unwritten; before
its `generate_seed` call nothing was generated; the value it is about to
store is not `0`; it has returned from a call only if the seed is not `0`. -/
def LocA (g : Shared) (t : ThreadA) : Prop :=
  (g.tas_wins = 0 → t.pc = PcA.idle ∨ t.pc = PcA.tas) ∧
  (critA t.pc → g.seed_writes = 0) ∧
  (t.pc = PcA.gen → g.gen_calls = 0) ∧
  (t.pc = PcA.store → t.new_seed ≠ 0) ∧
  (0 < t.returned → g.hashtable_seed ≠ 0)

/-- Invariant of the `HAVE_ATOMIC_BUILTINS` machine. -/
structure InvA (s : StateA) : Prop where
  /-- The shared part. -/
  glob : GlobA s.g
  /-- The part of every thread. -/
  loc : ∀ i, LocA s.g (s.threads i)
  /-- At most one thread is in the seeding branch. -/
  uniq : ∀ i j, critA (s.threads i).pc → critA (s.threads j).pc → i = j

/-- How a thread of the `HAVE_SYNC_BUILTINS` variant obtained its `new_seed`:
either it is its candidate cast to `uint32_t`, which is not `0`, and the call
has not run `generate_seed`; or the cast candidate is `0` and `new_seed` is
the result of the `generate_seed` call this thread made. -/
def ComputedB (cfg : Config) (t : ThreadB) : Prop :=
  (t.seed % UINT32_MOD ≠ 0 ∧ t.new_seed = t.seed % UINT32_MOD ∧ t.gen_env = none) ∨
  (t.seed % UINT32_MOD = 0 ∧
    ∃ env, t.gen_env = some env ∧ t.new_seed = generate_seed cfg env)

/-- The part of the `HAVE_SYNC_BUILTINS` invariant that speaks of the shared
variables only: at most one compare-and-swap succeeded, the writes are the
successful compare-and-swaps, and the seed is `0` exactly as long as none
succeeded. -/
def GlobB (g : Shared) : Prop :=
  g.cas_wins ≤ 1 ∧ g.seed_writes = g.cas_wins ∧ (g.cas_wins = 0 ↔ g.hashtable_seed = 0)

/-- The part of the `HAVE_SYNC_BUILTINS` invariant that speaks of one thread:
before its `generate_seed` call its cast candidate is `0` and it has
generated nothing; inside the loop its `new_seed` is not `0` and was obtained
as `ComputedB` says; it has returned from a call only if the seed is not `0`. -/
def LocB (cfg : Config) (g : Shared) (t : ThreadB) : Prop :=
  (t.pc = PcB.gen → t.seed % UINT32_MOD = 0) ∧
  (t.pc = PcB.cas ∨ t.pc = PcB.recheck → t.new_seed ≠ 0 ∧ ComputedB cfg t) ∧
  (0 < t.returned → g.hashtable_seed ≠ 0)

/-- Invariant of the `HAVE_SYNC_BUILTINS` machine with `N` threads. -/
structure InvB (cfg : Config) (N : Nat) (s : StateB) : Prop where
  /-- The shared part. -/
  glob : GlobB s.g
  /-- The part of every thread. -/
  loc : ∀ i, LocB cfg s.g (s.threads i)
  /-- The record holds one entry per successful compare-and-swap. -/
  log_len : s.cas_log.length = s.g.cas_wins
  /-- Every recorded compare-and-swap wrote the present seed, a non-zero value
  its thread computed. -/
  log : ∀ r ∈ s.cas_log, r.1 < N ∧ r.2.new_seed = s.g.hashtable_seed ∧
    r.2.new_seed ≠ 0 ∧ ComputedB cfg r.2

/-- A schedule of two threads of the `HAVE_ATOMIC_BUILTINS` variant: thread 0
enters with candidate `0`, thread 1 enters with candidate `9` and wins the
test-and-set, thread 0 loses it and waits, thread 1 stores `9` and returns,
thread 0 leaves the waiting loop and returns. -/
def schedA : List Label :=
  [⟨0, 0, envBytes⟩, ⟨1, 9, envBytes⟩, ⟨1, 0, envBytes⟩, ⟨0, 0, envBytes⟩, ⟨0, 0, envBytes⟩,
   ⟨1, 0, envBytes⟩, ⟨0, 0, envBytes⟩]

/-- A schedule of two threads of the `HAVE_SYNC_BUILTINS` variant: both enter
with candidate `0` and run `generate_seed` (thread 0 reads `01 02 03 04`,
thread 1 reads `00 00 00 01`), thread 1 wins the compare-and-swap, thread 0
fails it, re-reads the seed and returns. -/
def schedB : List Label :=
  [⟨0, 0, envBytes⟩, ⟨1, 0, envOne⟩, ⟨0, 0, envBytes⟩, ⟨1, 0, envOne⟩, ⟨1, 0, envOne⟩,
   ⟨0, 0, envBytes⟩, ⟨0, 0, envBytes⟩]

/-- A schedule of one thread of the `HAVE_SYNC_BUILTINS` variant: it enters
with the candidate `2^32 + 8` and its compare-and-swap succeeds. -/
def schedTrunc : List Label :=
  [⟨0, 2 ^ 32 + 8, envBytes⟩, ⟨0, 0, envBytes⟩]

/-- A schedule of two threads of the `HAVE_ATOMIC_BUILTINS` variant: thread 0
enters with candidate `42` while the seed is `0` and the guard unclaimed,
thread 1 enters with candidate `99` and wins the test-and-set, thread 0 loses
it, thread 1 stores `99` and returns, thread 0 leaves the waiting loop and
returns. -/
def schedRace : List Label :=
  [⟨0, 42, envBytes⟩, ⟨1, 99, envBytes⟩, ⟨1, 0, envBytes⟩, ⟨0, 0, envBytes⟩,
   ⟨1, 0, envBytes⟩, ⟨0, 0, envBytes⟩]

/-! ## Facts about the entropy chain -/

theorem to_uint32_lt (x : Int) : to_uint32 x < 2 ^ 32 := by
  unfold to_uint32
  have h : x % (2 ^ 32 : Int) < 2 ^ 32 := Int.emod_lt_of_pos x (by norm_num)
  have h0 : 0 ≤ x % (2 ^ 32 : Int) := Int.emod_nonneg x (by norm_num)
  omega

theorem to_uchar_eq (c : Int) (b : Nat) (h : c % 256 = (b : Int)) : to_uchar c = b := by
  unfold to_uchar
  rw [h]
  exact Int.toNat_ofNat b

theorem shift_or_byte (x b : Nat) (hx : x < 2 ^ 24) (hb : b < 256) :
    ((x <<< 8) % UINT32_MOD) ||| b = x * 256 + b := by
  have hlt : x <<< 8 < UINT32_MOD := by
    rw [Nat.shiftLeft_eq]
    unfold UINT32_MOD
    omega
  rw [Nat.mod_eq_of_lt hlt, Nat.shiftLeft_eq]
  have h := Nat.mul_add_lt_is_or (show b < 2 ^ 8 by omega) x
  rw [Nat.mul_comm x (2 ^ 8), ← h]

theorem buf_to_uint32_value (b0 b1 b2 b3 : Nat) (data : Nat → Int)
    (h0 : b0 < 256) (h1 : b1 < 256) (h2 : b2 < 256) (h3 : b3 < 256)
    (d0 : data 0 % 256 = (b0 : Int)) (d1 : data 1 % 256 = (b1 : Int))
    (d2 : data 2 % 256 = (b2 : Int)) (d3 : data 3 % 256 = (b3 : Int)) :
    buf_to_uint32 data = b0 * 2 ^ 24 + b1 * 2 ^ 16 + b2 * 2 ^ 8 + b3 := by
  have r : List.range sizeof_uint32 = [0, 1, 2, 3] := rfl
  unfold buf_to_uint32
  rw [r]
  simp only [List.foldl_cons, List.foldl_nil]
  rw [to_uchar_eq _ _ d0, to_uchar_eq _ _ d1, to_uchar_eq _ _ d2, to_uchar_eq _ _ d3]
  rw [shift_or_byte 0 b0 (by norm_num) h0]
  rw [shift_or_byte (0 * 256 + b0) b1 (by omega) h1]
  rw [shift_or_byte ((0 * 256 + b0) * 256 + b1) b2 (by omega) h2]
  rw [shift_or_byte (((0 * 256 + b0) * 256 + b1) * 256 + b2) b3 (by omega) h3]
  ring

theorem to_uchar_lt (c : Int) : to_uchar c < 256 := by
  unfold to_uchar
  have h : c % 256 < 256 := Int.emod_lt_of_pos c (by norm_num)
  have h0 : 0 ≤ c % 256 := Int.emod_nonneg c (by norm_num)
  omega

theorem to_uchar_spec (c : Int) : c % 256 = ((to_uchar c : Nat) : Int) := by
  unfold to_uchar
  have h0 : 0 ≤ c % 256 := Int.emod_nonneg c (by norm_num)
  omega

theorem buf_to_uint32_lt (data : Nat → Int) : buf_to_uint32 data < 2 ^ 32 := by
  rw [buf_to_uint32_value (to_uchar (data 0)) (to_uchar (data 1)) (to_uchar (data 2))
    (to_uchar (data 3)) data (to_uchar_lt _) (to_uchar_lt _) (to_uchar_lt _) (to_uchar_lt _)
    (to_uchar_spec _) (to_uchar_spec _) (to_uchar_spec _) (to_uchar_spec _)]
  have a := to_uchar_lt (data 0)
  have b := to_uchar_lt (data 1)
  have c := to_uchar_lt (data 2)
  have d := to_uchar_lt (data 3)
  omega

theorem seed_from_timestamp_and_pid_lt (cfg : Config) (env : Env) (seed : Nat) :
    (seed_from_timestamp_and_pid cfg env seed).2 < 2 ^ 32 := by
  unfold seed_from_timestamp_and_pid
  have a := to_uint32_lt env.tv_sec
  have b := to_uint32_lt env.tv_usec
  have c := to_uint32_lt env.time_ret
  have d := to_uint32_lt env.pid
  have ab := Nat.xor_lt_two_pow a b
  have abd := Nat.xor_lt_two_pow ab d
  have cd := Nat.xor_lt_two_pow c d
  cases cfg.HAVE_GETTIMEOFDAY <;> cases cfg.HAVE_GETPID <;> simp <;> assumption

theorem generate_seed_eq_guard (cfg : Config) (env : Env) :
    generate_seed cfg env = if selected_tier cfg env = 0 then 1 else selected_tier cfg env :=
  rfl

theorem generate_seed_ne_zero (cfg : Config) (env : Env) : generate_seed cfg env ≠ 0 := by
  rw [generate_seed_eq_guard]
  split
  · exact Nat.one_ne_zero
  · assumption

theorem seed_from_urandom_snd_lt (cfg : Config) (env : Env) (seed : Nat)
    (h : (seed_from_urandom cfg env seed).1 = 0) :
    (seed_from_urandom cfg env seed).2 < 2 ^ 32 := by
  have hb := buf_to_uint32_lt env.data
  unfold seed_from_urandom at h ⊢
  split at h <;> split at h <;> try simp at h
  all_goals split at h <;> try simp at h
  all_goals simp_all

theorem selected_tier_lt (cfg : Config) (env : Env) : selected_tier cfg env < 2 ^ 32 := by
  unfold selected_tier
  cases hU : cfg.USE_URANDOM
  · simpa using seed_from_timestamp_and_pid_lt cfg env _
  · by_cases h : (seed_from_urandom cfg env env.uninit_seed).1 = 0
    · simpa [h] using seed_from_urandom_snd_lt cfg env _ h
    · simpa [h] using seed_from_timestamp_and_pid_lt cfg env _

theorem generate_seed_lt (cfg : Config) (env : Env) : generate_seed cfg env < 2 ^ 32 := by
  rw [generate_seed_eq_guard]
  have h := selected_tier_lt cfg env
  split
  · norm_num
  · exact h

theorem selected_tier_cases (cfg : Config) (env : Env) :
    selected_tier cfg env =
      if cfg.USE_URANDOM = true ∧ (seed_from_urandom cfg env env.uninit_seed).1 = 0
      then (seed_from_urandom cfg env env.uninit_seed).2
      else (seed_from_timestamp_and_pid cfg env env.uninit_seed).2 := by
  unfold selected_tier
  cases hU : cfg.USE_URANDOM
  · simp [seed_from_timestamp_and_pid]
  · by_cases h : (seed_from_urandom cfg env env.uninit_seed).1 = 0
    · simp [h]
    · simp [h, seed_from_timestamp_and_pid]

theorem seed_from_urandom_fail (cfg : Config) (env : Env) (seed : Nat)
    (hfail : if cfg.HAVE_OPEN_CLOSE_READ = true then env.open_ret = -1 ∨ env.read_ret ≠ 4
             else env.fopen_ret = 0 ∨ env.fread_ret ≠ 4) :
    seed_from_urandom cfg env seed = (1, seed) := by
  unfold seed_from_urandom
  cases hO : cfg.HAVE_OPEN_CLOSE_READ
  · simp only [hO] at hfail
    simp only [Bool.false_eq_true, if_false] at hfail ⊢
    rcases hfail with h | h
    · simp [h]
    · simp [h]
  · simp only [hO, if_true] at hfail ⊢
    rcases hfail with h | h
    · simp [h]
    · simp [h]

theorem seed_from_urandom_ok (cfg : Config) (env : Env) (seed : Nat)
    (hok : if cfg.HAVE_OPEN_CLOSE_READ = true then env.open_ret ≠ -1 ∧ env.read_ret = 4
           else env.fopen_ret ≠ 0 ∧ env.fread_ret = 4) :
    seed_from_urandom cfg env seed = (0, buf_to_uint32 env.data) := by
  unfold seed_from_urandom
  cases hO : cfg.HAVE_OPEN_CLOSE_READ
  · simp only [hO] at hok
    simp only [Bool.false_eq_true, if_false] at hok ⊢
    simp [hok.1, hok.2]
  · simp only [hO, if_true] at hok ⊢
    simp [hok.1, hok.2]

theorem selected_tier_weak (cfg : Config) (env : Env)
    (hfail : cfg.USE_URANDOM = true →
      if cfg.HAVE_OPEN_CLOSE_READ = true then env.open_ret = -1 ∨ env.read_ret ≠ 4
      else env.fopen_ret = 0 ∨ env.fread_ret ≠ 4) :
    selected_tier cfg env = (seed_from_timestamp_and_pid cfg env env.uninit_seed).2 := by
  rw [selected_tier_cases]
  cases hU : cfg.USE_URANDOM
  · simp
  · rw [seed_from_urandom_fail cfg env _ (hfail hU)]
    simp

theorem selected_tier_strong (cfg : Config) (env : Env) (hU : cfg.USE_URANDOM = true)
    (hok : if cfg.HAVE_OPEN_CLOSE_READ = true then env.open_ret ≠ -1 ∧ env.read_ret = 4
           else env.fopen_ret ≠ 0 ∧ env.fread_ret = 4) :
    selected_tier cfg env = buf_to_uint32 env.data := by
  rw [selected_tier_cases, seed_from_urandom_ok cfg env _ hok]
  simp [hU]

/-! ## One thread calling alone -/

theorem json_object_seed_A_set (cfg : Config) (fuel : Nat) (g : Shared) (seed : Nat) (env : Env)
    (h : g.hashtable_seed ≠ 0) :
    json_object_seed_A cfg (fuel + 1) g seed env = some g := by
  simp [json_object_seed_A, json_object_seed_A_loop, json_object_seed_A_step, setThread,
    ThreadA.start, h]

theorem json_object_seed_A_first (cfg : Config) (fuel : Nat) (g : Shared) (seed : Nat) (env : Env)
    (h : g.hashtable_seed = 0) (hg : g.seed_initialized = 0) :
    json_object_seed_A cfg (fuel + 4) g seed env =
      some { g with
        hashtable_seed := if seed % UINT32_MOD = 0 then generate_seed cfg env else seed % UINT32_MOD,
        seed_initialized := 1,
        gen_calls := if seed % UINT32_MOD = 0 then g.gen_calls + 1 else g.gen_calls,
        seed_writes := g.seed_writes + 1,
        tas_wins := g.tas_wins + 1 } := by
  by_cases hz : seed % UINT32_MOD = 0
  · simp [json_object_seed_A, json_object_seed_A_loop, json_object_seed_A_step, setThread,
      ThreadA.start, h, hg, hz]
  · simp [json_object_seed_A, json_object_seed_A_loop, json_object_seed_A_step, setThread,
      ThreadA.start, h, hg, hz]

theorem json_object_seed_B_set (cfg : Config) (fuel : Nat) (g : Shared) (seed : Nat) (env : Env)
    (h : g.hashtable_seed ≠ 0) :
    json_object_seed_B cfg (fuel + 1) g seed env = some g := by
  simp [json_object_seed_B, json_object_seed_B_loop, json_object_seed_B_step, setThread,
    ThreadB.start, h]

theorem json_object_seed_B_first (cfg : Config) (fuel : Nat) (g : Shared) (seed : Nat) (env : Env)
    (h : g.hashtable_seed = 0) :
    json_object_seed_B cfg (fuel + 3) g seed env =
      some { g with
        hashtable_seed := if seed % UINT32_MOD = 0 then generate_seed cfg env else seed % UINT32_MOD,
        gen_calls := if seed % UINT32_MOD = 0 then g.gen_calls + 1 else g.gen_calls,
        seed_writes := g.seed_writes + 1,
        cas_wins := g.cas_wins + 1 } := by
  by_cases hz : seed % UINT32_MOD = 0
  · simp [json_object_seed_B, json_object_seed_B_loop, json_object_seed_B_step, setThread,
      ThreadB.start, h, hz]
  · simp [json_object_seed_B, json_object_seed_B_loop, json_object_seed_B_step, setThread,
      ThreadB.start, h, hz]

theorem json_object_seed_C_set (cfg : Config) (g : Shared) (seed : Nat) (env : Env)
    (h : g.hashtable_seed ≠ 0) :
    json_object_seed_C cfg g seed env = g := by
  simp [json_object_seed_C, h]

theorem json_object_seed_C_first (cfg : Config) (g : Shared) (seed : Nat) (env : Env)
    (h : g.hashtable_seed = 0) :
    json_object_seed_C cfg g seed env =
      { g with
        hashtable_seed := if seed % UINT32_MOD = 0 then generate_seed cfg env else seed % UINT32_MOD,
        gen_calls := if seed % UINT32_MOD = 0 then g.gen_calls + 1 else g.gen_calls,
        seed_writes := g.seed_writes + 1 } := by
  by_cases hz : seed % UINT32_MOD = 0
  · simp [json_object_seed_C, h, hz]
  · simp [json_object_seed_C, h, hz]

theorem seqA_set (cfg : Config) (fuel : Nat) (g : Shared) (h : g.hashtable_seed ≠ 0)
    (calls : List (Nat × Env)) : seqA cfg (fuel + 1) g calls = some g := by
  induction calls with
  | nil => rfl
  | cons c rest ih =>
    unfold seqA
    rw [json_object_seed_A_set cfg fuel g c.1 c.2 h]
    exact ih

theorem seqB_set (cfg : Config) (fuel : Nat) (g : Shared) (h : g.hashtable_seed ≠ 0)
    (calls : List (Nat × Env)) : seqB cfg (fuel + 1) g calls = some g := by
  induction calls with
  | nil => rfl
  | cons c rest ih =>
    unfold seqB
    rw [json_object_seed_B_set cfg fuel g c.1 c.2 h]
    exact ih

theorem seqC_set (cfg : Config) (g : Shared) (h : g.hashtable_seed ≠ 0)
    (calls : List (Nat × Env)) : seqC cfg g calls = g := by
  induction calls with
  | nil => rfl
  | cons c rest ih =>
    unfold seqC
    rw [json_object_seed_C_set cfg g c.1 c.2 h]
    exact ih

theorem installed_ne_zero (cfg : Config) (seed : Nat) (env : Env) :
    (if seed % UINT32_MOD = 0 then generate_seed cfg env else seed % UINT32_MOD) ≠ 0 := by
  split
  · exact generate_seed_ne_zero cfg env
  · assumption

theorem seq_agree (cfg : Config) (fuel : Nat) (calls : List (Nat × Env)) :
    ∀ gA gB gC : Shared, Agree gA gB gC →
      ∃ gA1 gB1, seqA cfg (fuel + 4) gA calls = some gA1 ∧
        seqB cfg (fuel + 4) gB calls = some gB1 ∧ Agree gA1 gB1 (seqC cfg gC calls) := by
  induction calls with
  | nil => intro gA gB gC h; exact ⟨gA, gB, rfl, rfl, h⟩
  | cons c rest ih =>
    intro gA gB gC h
    obtain ⟨hA, hB, hgA, hgB, hle, hwA, hwB, h0⟩ := h
    unfold seqA seqB seqC
    by_cases hz : gC.hashtable_seed = 0
    · have hA0 : gA.hashtable_seed = 0 := by rw [hA]; exact hz
      have hB0 : gB.hashtable_seed = 0 := by rw [hB]; exact hz
      obtain ⟨hguard, hgen⟩ := h0 hz
      rw [json_object_seed_A_first cfg fuel gA c.1 c.2 hA0 hguard,
        json_object_seed_B_first cfg (fuel + 1) gB c.1 c.2 hB0,
        json_object_seed_C_first cfg gC c.1 c.2 hz]
      apply ih
      have hnz := installed_ne_zero cfg c.1 c.2
      refine ⟨rfl, rfl, ?_, ?_, ?_, hwA, hwB, fun h => absurd h hnz⟩
      · simp only [hgA]
      · simp only [hgB]
      · simp only [hgen]; split <;> omega
    · have hA0 : gA.hashtable_seed ≠ 0 := by rw [hA]; exact hz
      have hB0 : gB.hashtable_seed ≠ 0 := by rw [hB]; exact hz
      rw [json_object_seed_A_set cfg (fuel + 3) gA c.1 c.2 hA0,
        json_object_seed_B_set cfg (fuel + 3) gB c.1 c.2 hB0,
        json_object_seed_C_set cfg gC c.1 c.2 hz]
      exact ih gA gB gC ⟨hA, hB, hgA, hgB, hle, hwA, hwB, h0⟩

/-! ## The `HAVE_ATOMIC_BUILTINS` machine -/

theorem InvA_init : InvA StateA.init := by
  refine ⟨?_, ?_, ?_⟩
  · simp [GlobA, StateA.init, Shared.init]
  · intro i; simp [LocA, critA, StateA.init, Shared.init, ThreadA.start]
  · intro i j hi; simp [critA, StateA.init, ThreadA.start] at hi

theorem InvA_update (s : StateA) (h : InvA s) (k : Nat) (g1 : Shared) (t1 : ThreadA)
    (hg : GlobA g1) (ht : LocA g1 t1)
    (hoth : ∀ t, LocA s.g t → (critA (s.threads k).pc → ¬ critA t.pc) → LocA g1 t)
    (hu : critA t1.pc → critA (s.threads k).pc ∨ ∀ i, ¬ critA (s.threads i).pc) :
    InvA ⟨g1, setThread s.threads k t1⟩ := by
  refine ⟨hg, ?_, ?_⟩
  · intro i
    by_cases e : i = k
    · simpa [setThread, e] using ht
    · simp only [setThread, if_neg e]
      exact hoth _ (h.loc i) (fun hc hci => e (h.uniq i k hci hc))
  · intro i j ci cj
    by_cases ei : i = k <;> by_cases ej : j = k
    · rw [ei, ej]
    · simp only [setThread, if_pos ei] at ci
      simp only [setThread, if_neg ej] at cj
      rcases hu ci with hk | hn
      · exact absurd (h.uniq j k cj hk) ej
      · exact absurd cj (hn j)
    · simp only [setThread, if_neg ei] at ci
      simp only [setThread, if_pos ej] at cj
      rcases hu cj with hk | hn
      · exact absurd (h.uniq i k ci hk) ei
      · exact absurd ci (hn i)
    · simp only [setThread, if_neg ei] at ci
      simp only [setThread, if_neg ej] at cj
      exact h.uniq i j ci cj

theorem InvA_step (cfg : Config) (N : Nat) (s : StateA) (l : Label) (h : InvA s) :
    InvA (json_object_seed_A_step cfg N s l) := by
  unfold json_object_seed_A_step
  by_cases hN : l.tid < N
  · simp only [hN, if_true]
    have hg := h.glob
    have hl := h.loc l.tid
    have hgen := generate_seed_ne_zero cfg l.env
    split <;> rename_i hpc
    · split <;> rename_i hz
      · apply InvA_update s h
        · exact hg
        · simp only [LocA, critA, GlobA] at *; simp_all
        · intro t ht _; exact ht
        · intro hc; simp [critA] at hc
      · apply InvA_update s h
        · exact hg
        · simp only [LocA, critA, GlobA] at *; simp_all
        · intro t ht _; exact ht
        · intro hc; simp [critA] at hc
    · -- test-and-set
      have hall : s.g.tas_wins = 0 → ∀ i, ¬ critA (s.threads i).pc := by
        intro h0 i hc
        have := (h.loc i).1 h0
        simp only [critA] at hc
        rcases hc with hc | hc <;> rw [hc] at this <;> simp at this
      split <;> rename_i hz
      · apply InvA_update s h
        · simp only [GlobA] at hg ⊢; omega
        · simp only [LocA, critA, GlobA] at *
          refine ⟨?_, ?_, ?_, ?_, ?_⟩ <;> simp_all
        · intro t ht _
          simp only [LocA, critA, GlobA] at *
          have := hall (hg.2.1 hz)
          refine ⟨?_, ?_, ?_, ?_, ?_⟩ <;> simp_all
        · intro _; exact Or.inr (hall (hg.2.1 hz))
      · apply InvA_update s h
        · simp only [GlobA] at hg ⊢; omega
        · simp only [LocA, critA, GlobA] at *; simp_all
        · intro t ht _; simp only [LocA, critA, GlobA] at *; simp_all
        · intro hc; simp [critA] at hc
    · -- generate_seed
      apply InvA_update s h
      · simp only [LocA, critA, GlobA, hpc] at hg hl ⊢; simp at hl; omega
      · simp only [LocA, critA, GlobA] at *; simp_all
      · intro t ht hc
        have hc1 := hc (Or.inl hpc)
        simp only [LocA, critA, GlobA] at *; simp_all
      · intro _; exact Or.inl (Or.inl hpc)
    · -- store
      apply InvA_update s h
      · simp only [LocA, critA, GlobA, hpc] at hg hl ⊢; simp at hl; omega
      · simp only [LocA, critA, GlobA] at *; simp_all
      · intro t ht hc
        have hc1 := hc (Or.inr hpc)
        simp only [LocA, critA, GlobA] at *; simp_all
      · intro hc; simp [critA] at hc
    · -- wait
      split <;> rename_i hz
      · exact h
      · apply InvA_update s h
        · exact hg
        · simp only [LocA, critA, GlobA] at *; simp_all
        · intro t ht _; exact ht
        · intro hc; simp [critA] at hc
  · simpa [hN] using h
theorem InvA_run (cfg : Config) (N : Nat) (sched : List Label) :
    ∀ s : StateA, InvA s → InvA (runA cfg N s sched) := by
  induction sched with
  | nil => intro s h; exact h
  | cons l rest ih => intro s h; exact ih _ (InvA_step cfg N s l h)

theorem stepA_seed_stable (cfg : Config) (N : Nat) (s : StateA) (l : Label) (h : InvA s)
    (hnz : s.g.hashtable_seed ≠ 0) :
    (json_object_seed_A_step cfg N s l).g.hashtable_seed = s.g.hashtable_seed := by
  unfold json_object_seed_A_step
  by_cases hN : l.tid < N
  · simp only [hN, if_true]
    have hg := h.glob
    have hl := h.loc l.tid
    split <;> rename_i hpc
    · split <;> rfl
    · split <;> rfl
    · rfl
    · simp only [LocA, critA, GlobA, hpc] at hg hl
      simp at hl
      omega
    · split <;> rfl
  · simp [hN]

theorem runA_seed_stable (cfg : Config) (N : Nat) (sched : List Label) :
    ∀ s : StateA, InvA s → s.g.hashtable_seed ≠ 0 →
      (runA cfg N s sched).g.hashtable_seed = s.g.hashtable_seed := by
  induction sched with
  | nil => intro s _ _; rfl
  | cons l rest ih =>
    intro s h hnz
    have e := stepA_seed_stable cfg N s l h hnz
    have := ih _ (InvA_step cfg N s l h) (by rw [e]; exact hnz)
    simp only [runA, List.foldl_cons] at this ⊢
    rw [this, e]

/-! ## The `HAVE_SYNC_BUILTINS` machine -/

theorem InvB_init (cfg : Config) (N : Nat) : InvB cfg N StateB.init := by
  refine ⟨?_, ?_, ?_, ?_⟩
  · simp [GlobB, StateB.init, Shared.init]
  · intro i; simp [LocB, StateB.init, Shared.init, ThreadB.start]
  · rfl
  · intro r hr; simp [StateB.init] at hr

theorem InvB_update (cfg : Config) (N : Nat) (s : StateB) (h : InvB cfg N s) (k : Nat)
    (g1 : Shared) (t1 : ThreadB) (hs : g1.hashtable_seed = s.g.hashtable_seed)
    (hc : g1.cas_wins = s.g.cas_wins) (hw : g1.seed_writes = s.g.seed_writes)
    (ht : LocB cfg g1 t1) :
    InvB cfg N ⟨g1, setThread s.threads k t1, s.cas_log⟩ := by
  refine ⟨?_, ?_, ?_, ?_⟩
  · have := h.glob
    simp only [GlobB] at this ⊢
    rw [hs, hc, hw]
    exact this
  · intro i
    by_cases e : i = k
    · simpa [setThread, e] using ht
    · simp only [setThread, if_neg e]
      have := h.loc i
      simp only [LocB] at this ⊢
      rw [hs]
      exact this
  · simp only [hc]
    exact h.log_len
  · intro r hr
    simp only [hs]
    exact h.log r hr

theorem InvB_step (cfg : Config) (N : Nat) (s : StateB) (l : Label) (h : InvB cfg N s) :
    InvB cfg N (json_object_seed_B_step cfg N s l) := by
  unfold json_object_seed_B_step
  by_cases hN : l.tid < N
  · simp only [hN, if_true]
    have hg := h.glob
    have hl := h.loc l.tid
    have hgen := generate_seed_ne_zero cfg l.env
    split <;> rename_i hpc
    · -- entry
      split <;> rename_i hz
      · refine InvB_update cfg N s h _ _ _ (by rfl) (by rfl) (by rfl) ?_
        simp only [LocB] at hl
        by_cases hm : l.seed % UINT32_MOD = 0
        · simpa [LocB, hm] using hl.2.2
        · simpa [LocB, ComputedB, hm] using hl.2.2
      · refine InvB_update cfg N s h _ _ _ (by rfl) (by rfl) (by rfl) ?_
        simp [LocB, hz]
    · -- generate_seed
      refine InvB_update cfg N s h _ _ _ (by rfl) (by rfl) (by rfl) ?_
      simp only [LocB, hpc] at hl
      simp at hl
      simp only [LocB, ComputedB]
      refine ⟨by simp, fun _ => ⟨hgen, Or.inr ⟨hl.1, l.env, rfl, rfl⟩⟩, hl.2⟩
    · -- compare-and-swap
      split <;> rename_i hz
      · simp only [LocB, hpc] at hl
        simp at hl
        simp only [GlobB] at hg
        have hc0 : s.g.cas_wins = 0 := hg.2.2.2 hz
        have hlog : s.cas_log = [] := by
          apply List.eq_nil_of_length_eq_zero
          rw [h.log_len, hc0]
        refine ⟨?_, ?_, ?_, ?_⟩
        · simp only [GlobB]
          have := hl.1.1
          omega
        · intro i
          by_cases e : i = l.tid
          · simp [setThread, e, LocB, hl.1.1]
          · simp only [setThread, if_neg e]
            have := h.loc i
            simp only [LocB] at this ⊢
            exact ⟨this.1, this.2.1, fun _ => hl.1.1⟩
        · simp [hlog, hc0]
        · intro r hr
          simp only [hlog, List.mem_singleton] at hr
          rw [hr]
          exact ⟨hN, rfl, hl.1.1, hl.1.2⟩
      · refine InvB_update cfg N s h _ _ _ (by rfl) (by rfl) (by rfl) ?_
        simp only [LocB, hpc] at hl ⊢
        simp at hl ⊢
        exact ⟨⟨hl.1.1, by simpa [ComputedB] using hl.1.2⟩, hl.2⟩
    · -- loop test
      split <;> rename_i hz
      · refine InvB_update cfg N s h _ _ _ (by rfl) (by rfl) (by rfl) ?_
        simp only [LocB, hpc] at hl ⊢
        simp at hl ⊢
        exact ⟨⟨hl.1.1, by simpa [ComputedB] using hl.1.2⟩, hl.2⟩
      · refine InvB_update cfg N s h _ _ _ (by rfl) (by rfl) (by rfl) ?_
        simp [LocB, hz]
  · simpa [hN] using h

theorem InvB_run (cfg : Config) (N : Nat) (sched : List Label) :
    ∀ s : StateB, InvB cfg N s → InvB cfg N (runB cfg N s sched) := by
  induction sched with
  | nil => intro s h; exact h
  | cons l rest ih => intro s h; exact ih _ (InvB_step cfg N s l h)

theorem stepB_seed_stable (cfg : Config) (N : Nat) (s : StateB) (l : Label)
    (hnz : s.g.hashtable_seed ≠ 0) :
    (json_object_seed_B_step cfg N s l).g.hashtable_seed = s.g.hashtable_seed ∧
    (json_object_seed_B_step cfg N s l).cas_log = s.cas_log := by
  unfold json_object_seed_B_step
  by_cases hN : l.tid < N
  · simp only [hN, if_true]
    split
    · split <;> exact ⟨rfl, rfl⟩
    · exact ⟨rfl, rfl⟩
    · split <;> rename_i hz
      · exact absurd hz hnz
      · exact ⟨rfl, rfl⟩
    · split <;> exact ⟨rfl, rfl⟩
  · simp [hN]

theorem runB_seed_stable (cfg : Config) (N : Nat) (sched : List Label) :
    ∀ s : StateB, s.g.hashtable_seed ≠ 0 →
      (runB cfg N s sched).g.hashtable_seed = s.g.hashtable_seed ∧
      (runB cfg N s sched).cas_log = s.cas_log := by
  induction sched with
  | nil => intro s _; exact ⟨rfl, rfl⟩
  | cons l rest ih =>
    intro s hnz
    have e := stepB_seed_stable cfg N s l hnz
    have := ih (json_object_seed_B_step cfg N s l) (by rw [e.1]; exact hnz)
    simp only [runB, List.foldl_cons] at this ⊢
    rw [this.1, this.2, e.1, e.2]
    exact ⟨rfl, rfl⟩

/-! ## A call among concurrent callers -/

theorem runA_append (cfg : Config) (N : Nat) (s : StateA) (a b : List Label) :
    runA cfg N s (a ++ b) = runA cfg N (runA cfg N s a) b := by
  simp [runA, List.foldl_append]

theorem runB_append (cfg : Config) (N : Nat) (s : StateB) (a b : List Label) :
    runB cfg N s (a ++ b) = runB cfg N (runB cfg N s a) b := by
  simp [runB, List.foldl_append]

theorem runA_cons (cfg : Config) (N : Nat) (s : StateA) (l : Label) (r : List Label) :
    runA cfg N s (l :: r) = runA cfg N (json_object_seed_A_step cfg N s l) r := rfl

theorem runB_cons (cfg : Config) (N : Nat) (s : StateB) (l : Label) (r : List Label) :
    runB cfg N s (l :: r) = runB cfg N (json_object_seed_B_step cfg N s l) r := rfl

theorem stepA_other (cfg : Config) (N : Nat) (s : StateA) (l : Label) (k : Nat)
    (hk : l.tid ≠ k) : (json_object_seed_A_step cfg N s l).threads k = s.threads k := by
  have hk2 : ¬ k = l.tid := fun e => hk e.symm
  unfold json_object_seed_A_step
  by_cases hN : l.tid < N
  · simp only [hN, if_true]
    split
    · split <;> simp [setThread, hk2]
    · split <;> simp [setThread, hk2]
    · simp [setThread, hk2]
    · simp [setThread, hk2]
    · split <;> simp [setThread, hk2]
  · simp [hN]

theorem stepA_other_gen (cfg : Config) (N : Nat) (s : StateA) (l : Label) (k : Nat)
    (h : InvA s) (hc : critA (s.threads k).pc) (hk : l.tid ≠ k) :
    (json_object_seed_A_step cfg N s l).g.gen_calls = s.g.gen_calls := by
  unfold json_object_seed_A_step
  by_cases hN : l.tid < N
  · simp only [hN, if_true]
    split <;> rename_i hpc
    · split <;> rfl
    · split <;> rfl
    · exact absurd (h.uniq l.tid k (Or.inl hpc) hc) hk
    · rfl
    · split <;> rfl
  · simp [hN]

theorem runA_others (cfg : Config) (N : Nat) (k : Nat) (others : List Label) :
    ∀ s : StateA, InvA s → (∀ l ∈ others, l.tid ≠ k) →
      (runA cfg N s others).threads k = s.threads k ∧
      (critA (s.threads k).pc → (runA cfg N s others).g.gen_calls = s.g.gen_calls) := by
  induction others with
  | nil => intro s _ _; exact ⟨rfl, fun _ => rfl⟩
  | cons l rest ih =>
    intro s h ho
    have hl : l.tid ≠ k := ho l (List.mem_cons_self l rest)
    have e := stepA_other cfg N s l k hl
    have hr := ih (json_object_seed_A_step cfg N s l) (InvA_step cfg N s l h)
      (fun x hx => ho x (List.mem_cons_of_mem l hx))
    rw [runA_cons]
    refine ⟨by rw [hr.1, e], fun hc => ?_⟩
    rw [hr.2 (by rw [e]; exact hc), stepA_other_gen cfg N s l k h hc hl]

theorem stepB_other (cfg : Config) (N : Nat) (s : StateB) (l : Label) (k : Nat)
    (hk : l.tid ≠ k) : (json_object_seed_B_step cfg N s l).threads k = s.threads k := by
  have hk2 : ¬ k = l.tid := fun e => hk e.symm
  unfold json_object_seed_B_step
  by_cases hN : l.tid < N
  · simp only [hN, if_true]
    split
    · split <;> simp [setThread, hk2]
    · simp [setThread, hk2]
    · split <;> simp [setThread, hk2]
    · split <;> simp [setThread, hk2]
  · simp [hN]

theorem runB_others (cfg : Config) (N : Nat) (k : Nat) (others : List Label) :
    ∀ s : StateB, (∀ l ∈ others, l.tid ≠ k) →
      (runB cfg N s others).threads k = s.threads k := by
  induction others with
  | nil => intro s _; rfl
  | cons l rest ih =>
    intro s ho
    have hl : l.tid ≠ k := ho l (List.mem_cons_self l rest)
    rw [runB_cons, ih _ (fun x hx => ho x (List.mem_cons_of_mem l hx)),
      stepB_other cfg N s l k hl]

theorem json_object_seed_A_winner (cfg : Config) (N k c : Nat) (env : Env) (l2 l3 : Label)
    (sched others1 others2 : List Label)
    (hc : c % UINT32_MOD ≠ 0) (hk : k < N) (hl2 : l2.tid = k) (hl3 : l3.tid = k)
    (hpc : ((runA cfg N StateA.init sched).threads k).pc = PcA.idle)
    (h0 : (runA cfg N StateA.init sched).g.hashtable_seed = 0)
    (ho1 : ∀ l ∈ others1, l.tid ≠ k) (ho2 : ∀ l ∈ others2, l.tid ≠ k)
    (hguard : (runA cfg N StateA.init (sched ++ ⟨k, c, env⟩ :: others1)).g.seed_initialized
      = 0) :
    (runA cfg N StateA.init
        (((sched ++ ⟨k, c, env⟩ :: others1) ++ l2 :: others2) ++ [l3])).g.hashtable_seed
      = c % UINT32_MOD ∧
    (runA cfg N StateA.init
        (((sched ++ ⟨k, c, env⟩ :: others1) ++ l2 :: others2) ++ [l3])).g.gen_calls = 0 ∧
    ((runA cfg N StateA.init
        (((sched ++ ⟨k, c, env⟩ :: others1) ++ l2 :: others2) ++ [l3])).threads k).pc
      = PcA.idle ∧
    ((runA cfg N StateA.init
        (((sched ++ ⟨k, c, env⟩ :: others1) ++ l2 :: others2) ++ [l3])).threads k).returned
      = ((runA cfg N StateA.init sched).threads k).returned + 1 := by
  have hI0 := InvA_run cfg N sched _ InvA_init
  simp only [runA_append, runA_cons] at hguard ⊢
  generalize runA cfg N StateA.init sched = s0 at hI0 hpc h0 hguard ⊢
  -- the entering step
  have hIA := InvA_step cfg N s0 ⟨k, c, env⟩ hI0
  have eA : (json_object_seed_A_step cfg N s0 ⟨k, c, env⟩).threads k
      = ⟨PcA.tas, c % UINT32_MOD, (s0.threads k).returned⟩ := by
    simp [json_object_seed_A_step, hk, hpc, h0, setThread]
  generalize json_object_seed_A_step cfg N s0 ⟨k, c, env⟩ = sA at hIA eA hguard ⊢
  -- other threads run
  have hI1 := InvA_run cfg N others1 sA hIA
  have e1 := (runA_others cfg N k others1 sA hIA ho1).1
  rw [eA] at e1
  generalize runA cfg N sA others1 = s1 at hI1 e1 hguard ⊢
  -- the test-and-set wins
  have hg1 := hI1.glob
  simp only [GlobA] at hg1
  have hgen1 : s1.g.gen_calls = 0 := (hg1.2.2.2.1 (hg1.2.1 hguard)).2
  have hIB := InvA_step cfg N s1 l2 hI1
  have eB : (json_object_seed_A_step cfg N s1 l2).threads k
      = ⟨PcA.store, c % UINT32_MOD, (s0.threads k).returned⟩ := by
    simp [json_object_seed_A_step, hl2, hk, e1, hguard, setThread, hc]
  have eBg : (json_object_seed_A_step cfg N s1 l2).g.gen_calls = 0 := by
    simp [json_object_seed_A_step, hl2, hk, e1, hguard, hgen1]
  generalize json_object_seed_A_step cfg N s1 l2 = sB at hIB eB eBg ⊢
  -- other threads run
  have hI2 := InvA_run cfg N others2 sB hIB
  have hr2 := runA_others cfg N k others2 sB hIB ho2
  have e2 := hr2.1
  have e2g := hr2.2 (by rw [eB]; exact Or.inr rfl)
  rw [eB] at e2
  rw [eBg] at e2g
  generalize runA cfg N sB others2 = s2 at hI2 e2 e2g ⊢
  -- the store
  simp [runA, json_object_seed_A_step, hl3, hk, e2, e2g, setThread]
theorem json_object_seed_B_winner (cfg : Config) (N k c : Nat) (env : Env) (l2 : Label)
    (sched others1 : List Label)
    (hc : c % UINT32_MOD ≠ 0) (hk : k < N) (hl2 : l2.tid = k)
    (hpc : ((runB cfg N StateB.init sched).threads k).pc = PcB.idle)
    (h0 : (runB cfg N StateB.init sched).g.hashtable_seed = 0)
    (ho1 : ∀ l ∈ others1, l.tid ≠ k)
    (hseed : (runB cfg N StateB.init (sched ++ ⟨k, c, env⟩ :: others1)).g.hashtable_seed
      = 0) :
    (runB cfg N StateB.init
        ((sched ++ ⟨k, c, env⟩ :: others1) ++ [l2])).g.hashtable_seed = c % UINT32_MOD ∧
    (∃ t : ThreadB,
      (runB cfg N StateB.init ((sched ++ ⟨k, c, env⟩ :: others1) ++ [l2])).cas_log
        = [(k, t)] ∧
      t.seed = c ∧ t.new_seed = c % UINT32_MOD ∧ t.gen_env = none) ∧
    ((runB cfg N StateB.init
        ((sched ++ ⟨k, c, env⟩ :: others1) ++ [l2])).threads k).pc = PcB.idle ∧
    ((runB cfg N StateB.init
        ((sched ++ ⟨k, c, env⟩ :: others1) ++ [l2])).threads k).returned
      = ((runB cfg N StateB.init sched).threads k).returned + 1 := by
  have hI0 := InvB_run cfg N sched _ (InvB_init cfg N)
  simp only [runB_append, runB_cons] at hseed ⊢
  generalize runB cfg N StateB.init sched = s0 at hI0 hpc h0 hseed ⊢
  -- the entering step
  have hIA := InvB_step cfg N s0 ⟨k, c, env⟩ hI0
  have eA : (json_object_seed_B_step cfg N s0 ⟨k, c, env⟩).threads k
      = ⟨PcB.cas, c, c % UINT32_MOD, none, (s0.threads k).returned⟩ := by
    simp [json_object_seed_B_step, hk, hpc, h0, setThread, hc]
  generalize json_object_seed_B_step cfg N s0 ⟨k, c, env⟩ = sA at hIA eA hseed ⊢
  -- other threads run
  have hI1 := InvB_run cfg N others1 sA hIA
  have e1 := runB_others cfg N k others1 sA ho1
  rw [eA] at e1
  generalize runB cfg N sA others1 = s1 at hI1 e1 hseed ⊢
  -- the compare-and-swap succeeds
  have hg1 := hI1.glob
  simp only [GlobB] at hg1
  have hlog : s1.cas_log = [] := by
    apply List.eq_nil_of_length_eq_zero
    rw [hI1.log_len, hg1.2.2.2 hseed]
  refine ⟨?_, ⟨s1.threads k, ?_, ?_, ?_, ?_⟩, ?_, ?_⟩
  · simp [runB, json_object_seed_B_step, hl2, hk, e1, hseed]
  · simp [runB, json_object_seed_B_step, hl2, hk, e1, hseed, hlog]
  · rw [e1]
  · rw [e1]
  · rw [e1]
  · simp [runB, json_object_seed_B_step, hl2, hk, e1, hseed, setThread]
  · simp [runB, json_object_seed_B_step, hl2, hk, e1, hseed, setThread]

/-! ## The claims about the entropy chain -/

/-- C4, as stated, fails: when the device delivers the bytes `00 00 00 01`
the strong tier succeeds and produces `1`, not `0`, and `generate_seed`
returns `1`; so "returns 1" does not imply "the tier produced 0". -/
theorem generate_seed_one_without_zero_tier :
    seed_from_urandom cfgFull envOne envOne.uninit_seed = (0, 1) ∧
    selected_tier cfgFull envOne = 1 ∧
    generate_seed cfgFull envOne = 1 ∧
    ¬ (generate_seed cfgFull envOne = 1 ↔ selected_tier cfgFull envOne = 0) := by
  decide

/-- C4, amended: for every build, every outcome of the strong source and
every clock and process-id reading, `generate_seed` returns a value below
`2 ^ 32` that is not `0`; it is the value the selected tier produced (the four
bytes of the device when the strong tier succeeded, the clock and process-id
mix otherwise) when that value is not `0`, and `1` when it is `0`; hence the
result is `1` exactly when the selected tier produced `0` or `1`. -/
theorem generate_seed_nonzero (cfg : Config) (env : Env) :
    generate_seed cfg env ≠ 0 ∧
    generate_seed cfg env < 2 ^ 32 ∧
    generate_seed cfg env
      = (if selected_tier cfg env = 0 then 1 else selected_tier cfg env) ∧
    (generate_seed cfg env = 1 ↔ selected_tier cfg env = 0 ∨ selected_tier cfg env = 1) ∧
    selected_tier cfg env =
      (if cfg.USE_URANDOM = true ∧ (seed_from_urandom cfg env env.uninit_seed).1 = 0
       then (seed_from_urandom cfg env env.uninit_seed).2
       else (seed_from_timestamp_and_pid cfg env env.uninit_seed).2) := by
  refine ⟨generate_seed_ne_zero cfg env, generate_seed_lt cfg env,
    generate_seed_eq_guard cfg env, ?_, selected_tier_cases cfg env⟩
  rw [generate_seed_eq_guard]
  by_cases h : selected_tier cfg env = 0
  · simp [h]
  · simp [h]

/-- C5: for bytes `b0 .. b3` below 256 held in `char`s of either signedness
(`data i` is congruent to the byte modulo 256), `buf_to_uint32` returns
`b0 * 2^24 + b1 * 2^16 + b2 * 2^8 + b3`; and in a build that uses the device,
when the device is opened and delivers exactly these four bytes,
`generate_seed` returns that number, or `1` if it is `0`, whatever the clock
and process-id readings are. -/
theorem buf_to_uint32_big_endian (b0 b1 b2 b3 : Nat) (data : Nat → Int)
    (h0 : b0 < 256) (h1 : b1 < 256) (h2 : b2 < 256) (h3 : b3 < 256)
    (d0 : data 0 % 256 = (b0 : Int)) (d1 : data 1 % 256 = (b1 : Int))
    (d2 : data 2 % 256 = (b2 : Int)) (d3 : data 3 % 256 = (b3 : Int)) :
    buf_to_uint32 data = b0 * 2 ^ 24 + b1 * 2 ^ 16 + b2 * 2 ^ 8 + b3 ∧
    ∀ (cfg : Config) (env : Env), cfg.USE_URANDOM = true → env.data = data →
      (if cfg.HAVE_OPEN_CLOSE_READ = true then env.open_ret ≠ -1 ∧ env.read_ret = 4
       else env.fopen_ret ≠ 0 ∧ env.fread_ret = 4) →
      generate_seed cfg env =
        (if b0 * 2 ^ 24 + b1 * 2 ^ 16 + b2 * 2 ^ 8 + b3 = 0 then 1
         else b0 * 2 ^ 24 + b1 * 2 ^ 16 + b2 * 2 ^ 8 + b3) := by
  have hv := buf_to_uint32_value b0 b1 b2 b3 data h0 h1 h2 h3 d0 d1 d2 d3
  refine ⟨hv, ?_⟩
  intro cfg env hU hd hok
  rw [generate_seed_eq_guard, selected_tier_strong cfg env hU hok, hd, hv]

/-- C5 at the bytes `01 02 03 04`, once as unsigned and once with the
clock and process id changed. -/
theorem buf_to_uint32_big_endian_witness :
    buf_to_uint32 (bytes4 1 2 3 4) = 0x01020304 ∧
    generate_seed cfgFull envBytes = 0x01020304 ∧
    generate_seed cfgFull { envBytes with tv_sec := 5, tv_usec := 5, pid := 0 } = 0x01020304 := by
  have h := buf_to_uint32_big_endian 1 2 3 4 (bytes4 1 2 3 4) (by decide) (by decide)
    (by decide) (by decide) (by decide) (by decide) (by decide) (by decide)
  refine ⟨h.1, ?_, ?_⟩
  · exact h.2 cfgFull envBytes rfl rfl (by decide)
  · exact h.2 cfgFull { envBytes with tv_sec := 5, tv_usec := 5, pid := 0 } rfl rfl (by decide)

/-- C6, as stated, fails: with the device unopenable, 1 second, 2
microseconds and process id 4, the claimed value is `1 xor 2 xor 4 = 7`, but
`generate_seed` returns `1 xor 4 = 5` in a build without `gettimeofday`
(lines 116-118), `1 xor 2 = 3` in a build without `getpid` (lines 122-124
compiled out) and `1` in a build without both. -/
theorem generate_seed_fallback_formula_depends_on_build :
    seed_from_urandom cfgNoClock envWeak envWeak.uninit_seed = (1, envWeak.uninit_seed) ∧
    envWeak.time_ret = envWeak.tv_sec ∧
    (envWeak.tv_sec % 2 ^ 32).toNat ^^^ (envWeak.tv_usec % 2 ^ 32).toNat
      ^^^ (envWeak.pid % 2 ^ 32).toNat = 7 ∧
    generate_seed cfgNoClock envWeak = 5 ∧
    generate_seed cfgNoPid envWeak = 3 ∧
    generate_seed cfgNoClockNoPid envWeak = 1 ∧
    generate_seed cfgFull envWeak = 7 := by
  decide

/-- C6, amended: whenever the strong source fails (the device cannot be
opened, or the read does not deliver 4 bytes, whatever the buffer holds),
`seed_from_urandom` returns `1` and leaves `*seed` as it was, and
`generate_seed` returns a non-zero value `w`, or `1` if `w = 0`, where `w`
comes from the weak tier only and depends on the build:
`(seconds mod 2^32) xor (microseconds mod 2^32) xor (pid mod 2^32)` with
`gettimeofday` and `getpid`; `(seconds mod 2^32) xor (microseconds mod 2^32)`
with `gettimeofday` only; `(time(NULL) mod 2^32) xor (pid mod 2^32)` with
`getpid` only; `time(NULL) mod 2^32` with neither.  The result does not
depend on the buffer contents nor on the uninitialised local. -/
theorem generate_seed_fallback (cfg : Config) (env : Env)
    (hfail : cfg.USE_URANDOM = true →
      if cfg.HAVE_OPEN_CLOSE_READ = true then env.open_ret = -1 ∨ env.read_ret ≠ 4
      else env.fopen_ret = 0 ∨ env.fread_ret ≠ 4) :
    (cfg.USE_URANDOM = true → ∀ seed : Nat, seed_from_urandom cfg env seed = (1, seed)) ∧
    generate_seed cfg env ≠ 0 ∧
    (cfg.HAVE_GETTIMEOFDAY = true → cfg.HAVE_GETPID = true →
      generate_seed cfg env =
        (if (env.tv_sec % 2 ^ 32).toNat ^^^ (env.tv_usec % 2 ^ 32).toNat
              ^^^ (env.pid % 2 ^ 32).toNat = 0 then 1
         else (env.tv_sec % 2 ^ 32).toNat ^^^ (env.tv_usec % 2 ^ 32).toNat
              ^^^ (env.pid % 2 ^ 32).toNat)) ∧
    (cfg.HAVE_GETTIMEOFDAY = true → cfg.HAVE_GETPID = false →
      generate_seed cfg env =
        (if (env.tv_sec % 2 ^ 32).toNat ^^^ (env.tv_usec % 2 ^ 32).toNat = 0 then 1
         else (env.tv_sec % 2 ^ 32).toNat ^^^ (env.tv_usec % 2 ^ 32).toNat)) ∧
    (cfg.HAVE_GETTIMEOFDAY = false → cfg.HAVE_GETPID = true →
      generate_seed cfg env =
        (if (env.time_ret % 2 ^ 32).toNat ^^^ (env.pid % 2 ^ 32).toNat = 0 then 1
         else (env.time_ret % 2 ^ 32).toNat ^^^ (env.pid % 2 ^ 32).toNat)) ∧
    (cfg.HAVE_GETTIMEOFDAY = false → cfg.HAVE_GETPID = false →
      generate_seed cfg env =
        (if (env.time_ret % 2 ^ 32).toNat = 0 then 1
         else (env.time_ret % 2 ^ 32).toNat)) ∧
    (∀ (data : Nat → Int) (u : Nat),
      generate_seed cfg { env with data := data, uninit_seed := u } = generate_seed cfg env) := by
  refine ⟨fun hU seed => seed_from_urandom_fail cfg env seed (hfail hU),
    generate_seed_ne_zero cfg env, ?_, ?_, ?_, ?_, ?_⟩
  · intro hT hP
    rw [generate_seed_eq_guard, selected_tier_weak cfg env hfail]
    simp [seed_from_timestamp_and_pid, hT, hP, to_uint32]
  · intro hT hP
    rw [generate_seed_eq_guard, selected_tier_weak cfg env hfail]
    simp [seed_from_timestamp_and_pid, hT, hP, to_uint32]
  · intro hT hP
    rw [generate_seed_eq_guard, selected_tier_weak cfg env hfail]
    simp [seed_from_timestamp_and_pid, hT, hP, to_uint32]
  · intro hT hP
    rw [generate_seed_eq_guard, selected_tier_weak cfg env hfail]
    simp [seed_from_timestamp_and_pid, hT, hP, to_uint32]
  · intro data u
    rw [generate_seed_eq_guard, generate_seed_eq_guard, selected_tier_weak cfg env hfail,
      selected_tier_weak cfg { env with data := data, uninit_seed := u } hfail]
    rfl

/-- C6 at a device that cannot be opened and at a short read in the full
build, and at an unopenable device in the three smaller builds. -/
theorem generate_seed_fallback_witness :
    generate_seed cfgFull envNoDevice = 1700000000 ^^^ 123456 ^^^ 4242 ∧
    generate_seed cfgFull envShort ≠ 0 ∧
    seed_from_urandom cfgFull envShort 77 = (1, 77) ∧
    generate_seed cfgNoPid envNoDevice = 1700000000 ^^^ 123456 ∧
    generate_seed cfgNoClock envNoDevice = 1700000000 ^^^ 4242 ∧
    generate_seed cfgNoClockNoPid envNoDevice = 1700000000 := by
  have h1 := generate_seed_fallback cfgFull envNoDevice (fun _ => by decide)
  have h2 := generate_seed_fallback cfgFull envShort (fun _ => by decide)
  have h3 := generate_seed_fallback cfgNoPid envNoDevice (fun _ => by decide)
  have h4 := generate_seed_fallback cfgNoClock envNoDevice (fun _ => by decide)
  have h5 := generate_seed_fallback cfgNoClockNoPid envNoDevice (fun _ => by decide)
  refine ⟨?_, h2.2.1, h2.1 rfl 77, ?_, ?_, ?_⟩
  · rw [h1.2.2.1 rfl rfl]; decide
  · rw [h3.2.2.2.1 rfl rfl]; decide
  · rw [h4.2.2.2.2.1 rfl rfl]; decide
  · rw [h5.2.2.2.2.2.1 rfl rfl]; decide

/-! ## The claims about calls made by one thread -/

/-- C2: in each of the three variants, when `hashtable_seed` is already
non-zero, a call with any candidate returns (after one step) with the whole
shared state unchanged: the seed, the guard `seed_initialized`, and the
counters of `generate_seed` calls, of test-and-set and compare-and-swap
executions and of writes; hence any sequence of further calls leaves the
state, and so the seed, as it was.  The same holds inside any interleaving:
a thread that enters the function in such a state returns in that very step
and leaves the shared state as it was. -/
theorem json_object_seed_idempotent (cfg : Config) (fuel : Nat) (g : Shared)
    (h : g.hashtable_seed ≠ 0) (seed : Nat) (env : Env) (calls : List (Nat × Env)) :
    json_object_seed_A cfg (fuel + 1) g seed env = some g ∧
    json_object_seed_B cfg (fuel + 1) g seed env = some g ∧
    json_object_seed_C cfg g seed env = g ∧
    seqA cfg (fuel + 1) g calls = some g ∧
    seqB cfg (fuel + 1) g calls = some g ∧
    seqC cfg g calls = g ∧
    (∀ (N : Nat) (s : StateA) (l : Label), s.g = g → l.tid < N →
      (s.threads l.tid).pc = PcA.idle →
      (json_object_seed_A_step cfg N s l).g = g ∧
      ((json_object_seed_A_step cfg N s l).threads l.tid).pc = PcA.idle ∧
      ((json_object_seed_A_step cfg N s l).threads l.tid).returned
        = (s.threads l.tid).returned + 1) ∧
    (∀ (N : Nat) (s : StateB) (l : Label), s.g = g → l.tid < N →
      (s.threads l.tid).pc = PcB.idle →
      (json_object_seed_B_step cfg N s l).g = g ∧
      ((json_object_seed_B_step cfg N s l).threads l.tid).pc = PcB.idle ∧
      ((json_object_seed_B_step cfg N s l).threads l.tid).returned
        = (s.threads l.tid).returned + 1) := by
  refine ⟨json_object_seed_A_set cfg fuel g seed env h,
    json_object_seed_B_set cfg fuel g seed env h,
    json_object_seed_C_set cfg g seed env h, seqA_set cfg fuel g h calls,
    seqB_set cfg fuel g h calls, seqC_set cfg g h calls, ?_, ?_⟩
  · intro N s l hs hN hpc
    subst hs
    simp [json_object_seed_A_step, hN, hpc, h, setThread]
  · intro N s l hs hN hpc
    subst hs
    simp [json_object_seed_B_step, hN, hpc, h, setThread]

/-- C2 at the seed `42` with the candidates `0` and `99`. -/
theorem json_object_seed_idempotent_witness :
    json_object_seed_A cfgFull 1 ⟨42, 1, 0, 1, 1, 0, 0⟩ 99 envBytes
      = some ⟨42, 1, 0, 1, 1, 0, 0⟩ ∧
    json_object_seed_B cfgFull 1 ⟨42, 1, 0, 1, 1, 0, 0⟩ 99 envBytes
      = some ⟨42, 1, 0, 1, 1, 0, 0⟩ ∧
    seqC cfgFull ⟨42, 1, 0, 1, 1, 0, 0⟩ [(0, envBytes), (99, envZero)]
      = ⟨42, 1, 0, 1, 1, 0, 0⟩ := by
  have h := json_object_seed_idempotent cfgFull 0 ⟨42, 1, 0, 1, 1, 0, 0⟩ (by decide) 99 envBytes
    [(0, envBytes), (99, envZero)]
  exact ⟨h.1, h.2.1, h.2.2.2.2.2.1⟩

/-- C3, as stated, fails in two ways.  First, `2 ^ 32` is a non-zero `size_t`
candidate, yet a call `json_object_seed(2 ^ 32)` from the initial state runs
`generate_seed` once and installs its result `0x01020304`, not the candidate,
in all three variants.  Second, with two threads of the
`HAVE_ATOMIC_BUILTINS` variant, thread 0 enters with candidate `42` while the
seed is `0` and the guard unclaimed (after its entering step it stands before
the test-and-set with `new_seed = 42`), thread 1 wins the test-and-set with
candidate `99`, and the call of thread 0 returns with the seed `99`. -/
theorem json_object_seed_nonzero_candidate_not_installed :
    (2 ^ 32 : Nat) ≠ 0 ∧
    Shared.init.hashtable_seed = 0 ∧ Shared.init.seed_initialized = 0 ∧
    json_object_seed_A cfgFull 4 Shared.init (2 ^ 32) envBytes
      = some ⟨0x01020304, 1, 1, 1, 1, 0, 0⟩ ∧
    json_object_seed_B cfgFull 4 Shared.init (2 ^ 32) envBytes
      = some ⟨0x01020304, 0, 1, 1, 0, 1, 0⟩ ∧
    json_object_seed_C cfgFull Shared.init (2 ^ 32) envBytes
      = ⟨0x01020304, 0, 1, 1, 0, 0, 0⟩ ∧
    StateA.init.g.hashtable_seed = 0 ∧ StateA.init.g.seed_initialized = 0 ∧
    (runA cfgFull 2 StateA.init (schedRace.take 1)).g = Shared.init ∧
    (runA cfgFull 2 StateA.init (schedRace.take 1)).threads 0 = ⟨PcA.tas, 42, 0⟩ ∧
    (runA cfgFull 2 StateA.init schedRace).threads 0 = ⟨PcA.idle, 42, 1⟩ ∧
    (runA cfgFull 2 StateA.init schedRace).g = ⟨99, 1, 0, 1, 1, 0, 1⟩ := by
  decide

/-- C3, amended: for every candidate `c` with `c mod 2^32 ≠ 0` (every
non-zero `c` below `2^32` is one, and then `c mod 2^32 = c`):
(1) a call made when `hashtable_seed` is `0` (and, in the
`HAVE_ATOMIC_BUILTINS` variant, the guard is unclaimed), during which no
other thread takes a step, returns with `hashtable_seed = c mod 2^32` and
without a call of `generate_seed`; a following call with any candidate `c2`
returns with the state unchanged;
(2) among concurrent callers, whatever steps the other threads take in
between, a call that enters when `hashtable_seed` is `0` and then wins the
test-and-set (`HAVE_ATOMIC_BUILTINS`: the guard is still unclaimed when the
call executes it) or succeeds in its compare-and-swap (`HAVE_SYNC_BUILTINS`:
the seed is still `0` when the call executes it) returns with
`hashtable_seed = c mod 2^32` without having called `generate_seed`. -/
theorem json_object_seed_first_caller_wins (cfg : Config) (fuel : Nat) (g : Shared)
    (c : Nat) (env : Env) (c2 : Nat) (env2 : Env)
    (hc : c % 2 ^ 32 ≠ 0) (h0 : g.hashtable_seed = 0) :
    (g.seed_initialized = 0 →
      ∃ gA, json_object_seed_A cfg (fuel + 4) g c env = some gA ∧
        gA.hashtable_seed = c % 2 ^ 32 ∧ gA.gen_calls = g.gen_calls ∧
        json_object_seed_A cfg (fuel + 4) gA c2 env2 = some gA) ∧
    (∃ gB, json_object_seed_B cfg (fuel + 4) g c env = some gB ∧
        gB.hashtable_seed = c % 2 ^ 32 ∧ gB.gen_calls = g.gen_calls ∧
        json_object_seed_B cfg (fuel + 4) gB c2 env2 = some gB) ∧
    ((json_object_seed_C cfg g c env).hashtable_seed = c % 2 ^ 32 ∧
        (json_object_seed_C cfg g c env).gen_calls = g.gen_calls ∧
        json_object_seed_C cfg (json_object_seed_C cfg g c env) c2 env2
          = json_object_seed_C cfg g c env) ∧
    (c < 2 ^ 32 → c % 2 ^ 32 = c) ∧
    (∀ (N k : Nat) (l2 l3 : Label) (sched others1 others2 : List Label),
      k < N → l2.tid = k → l3.tid = k →
      ((runA cfg N StateA.init sched).threads k).pc = PcA.idle →
      (runA cfg N StateA.init sched).g.hashtable_seed = 0 →
      (∀ l ∈ others1, l.tid ≠ k) → (∀ l ∈ others2, l.tid ≠ k) →
      (runA cfg N StateA.init (sched ++ ⟨k, c, env⟩ :: others1)).g.seed_initialized = 0 →
      (runA cfg N StateA.init
          (((sched ++ ⟨k, c, env⟩ :: others1) ++ l2 :: others2) ++ [l3])).g.hashtable_seed
        = c % 2 ^ 32 ∧
      (runA cfg N StateA.init
          (((sched ++ ⟨k, c, env⟩ :: others1) ++ l2 :: others2) ++ [l3])).g.gen_calls = 0 ∧
      ((runA cfg N StateA.init
          (((sched ++ ⟨k, c, env⟩ :: others1) ++ l2 :: others2) ++ [l3])).threads k).pc
        = PcA.idle ∧
      ((runA cfg N StateA.init
          (((sched ++ ⟨k, c, env⟩ :: others1) ++ l2 :: others2) ++ [l3])).threads k).returned
        = ((runA cfg N StateA.init sched).threads k).returned + 1) ∧
    (∀ (N k : Nat) (l2 : Label) (sched others1 : List Label),
      k < N → l2.tid = k →
      ((runB cfg N StateB.init sched).threads k).pc = PcB.idle →
      (runB cfg N StateB.init sched).g.hashtable_seed = 0 →
      (∀ l ∈ others1, l.tid ≠ k) →
      (runB cfg N StateB.init (sched ++ ⟨k, c, env⟩ :: others1)).g.hashtable_seed = 0 →
      (runB cfg N StateB.init
          ((sched ++ ⟨k, c, env⟩ :: others1) ++ [l2])).g.hashtable_seed = c % 2 ^ 32 ∧
      (∃ t : ThreadB,
        (runB cfg N StateB.init ((sched ++ ⟨k, c, env⟩ :: others1) ++ [l2])).cas_log
          = [(k, t)] ∧
        t.seed = c ∧ t.new_seed = c % 2 ^ 32 ∧ t.gen_env = none) ∧
      ((runB cfg N StateB.init
          ((sched ++ ⟨k, c, env⟩ :: others1) ++ [l2])).threads k).pc = PcB.idle ∧
      ((runB cfg N StateB.init
          ((sched ++ ⟨k, c, env⟩ :: others1) ++ [l2])).threads k).returned
        = ((runB cfg N StateB.init sched).threads k).returned + 1) := by
  have hc1 : ¬ c % UINT32_MOD = 0 := hc
  refine ⟨?_, ?_, ?_, fun h => Nat.mod_eq_of_lt h, ?_, ?_⟩
  · intro hg
    rw [json_object_seed_A_first cfg fuel g c env h0 hg]
    refine ⟨_, rfl, ?_, ?_, ?_⟩
    · simp only [if_neg hc1]; rfl
    · simp only [if_neg hc1]
    · apply json_object_seed_A_set cfg (fuel + 3)
      simp only [if_neg hc1]; exact hc1
  · rw [json_object_seed_B_first cfg (fuel + 1) g c env h0]
    refine ⟨_, rfl, ?_, ?_, ?_⟩
    · simp only [if_neg hc1]; rfl
    · simp only [if_neg hc1]
    · apply json_object_seed_B_set cfg (fuel + 3)
      simp only [if_neg hc1]; exact hc1
  · rw [json_object_seed_C_first cfg g c env h0]
    refine ⟨?_, ?_, ?_⟩
    · simp only [if_neg hc1]; rfl
    · simp only [if_neg hc1]
    · apply json_object_seed_C_set cfg
      simp only [if_neg hc1]; exact hc1
  · intro N k l2 l3 sched others1 others2 hk hl2 hl3 hpc hz ho1 ho2 hguard
    exact json_object_seed_A_winner cfg N k c env l2 l3 sched others1 others2 hc1 hk hl2 hl3
      hpc hz ho1 ho2 hguard
  · intro N k l2 sched others1 hk hl2 hpc hz ho1 hseed
    exact json_object_seed_B_winner cfg N k c env l2 sched others1 hc1 hk hl2 hpc hz ho1 hseed

/-- C3 at the candidates `42` then `99` from the initial state, which leaves
`42`, and in the other order, which leaves `99`; and at two threads of the
`HAVE_ATOMIC_BUILTINS` variant where thread 0 enters with `42`, thread 1
enters with `99`, thread 0 wins the test-and-set, thread 1 loses it, and
thread 0 stores: the seed is `42`. -/
theorem json_object_seed_first_caller_wins_witness :
    (∃ gA, json_object_seed_A cfgFull 4 Shared.init 42 envBytes = some gA ∧
        gA.hashtable_seed = 42 % 2 ^ 32 ∧ gA.gen_calls = 0 ∧
        json_object_seed_A cfgFull 4 gA 99 envZero = some gA) ∧
    (json_object_seed_C cfgFull Shared.init 99 envBytes).hashtable_seed = 99 % 2 ^ 32 ∧
    json_object_seed_C cfgFull (json_object_seed_C cfgFull Shared.init 99 envBytes) 42 envZero
      = json_object_seed_C cfgFull Shared.init 99 envBytes ∧
    seqA cfgFull 4 Shared.init [(42, envBytes), (99, envBytes)]
      = some ⟨42, 1, 0, 1, 1, 0, 0⟩ ∧
    seqB cfgFull 4 Shared.init [(99, envBytes), (42, envBytes)]
      = some ⟨99, 0, 0, 1, 0, 1, 0⟩ ∧
    (runA cfgFull 2 StateA.init
        ((([] ++ ⟨0, 42, envBytes⟩ :: [⟨1, 99, envBytes⟩]) ++
          ⟨0, 0, envBytes⟩ :: [⟨1, 0, envBytes⟩]) ++ [⟨0, 0, envBytes⟩])).g.hashtable_seed
      = 42 % 2 ^ 32 ∧
    (runB cfgFull 2 StateB.init
        (([] ++ ⟨0, 42, envBytes⟩ :: [⟨1, 99, envBytes⟩]) ++ [⟨0, 0, envBytes⟩])).g.hashtable_seed
      = 42 % 2 ^ 32 := by
  have h1 := json_object_seed_first_caller_wins cfgFull 0 Shared.init 42 envBytes 99 envZero
    (by decide) rfl
  have h2 := json_object_seed_first_caller_wins cfgFull 0 Shared.init 99 envBytes 42 envZero
    (by decide) rfl
  refine ⟨h1.1 rfl, h2.2.2.1.1, h2.2.2.1.2.2, by decide, by decide, ?_, ?_⟩
  · exact (h1.2.2.2.2.1 2 0 ⟨0, 0, envBytes⟩ ⟨0, 0, envBytes⟩ [] [⟨1, 99, envBytes⟩]
      [⟨1, 0, envBytes⟩] (by decide) rfl rfl (by decide) (by decide) (by decide) (by decide)
      (by decide)).1
  · exact (h1.2.2.2.2.2 2 0 ⟨0, 0, envBytes⟩ [] [⟨1, 99, envBytes⟩]
      (by decide) rfl (by decide) (by decide) (by decide) (by decide)).1

/-- C10: for every `size_t` candidate `s` passed while `hashtable_seed` is
`0` (for the `HAVE_ATOMIC_BUILTINS` variant also the guard is unclaimed, as it
is when no other thread ever ran), the call returns and the installed seed is
`s mod 2^32` when that is non-zero, and the result of `generate_seed`
(one call) when `s mod 2^32 = 0`; the candidate `2^32` is treated exactly
like the candidate `0`, and the installed seed then differs from `2^32`.
The last part shows that a single caller never meets a zero seed with a
claimed guard: after any sequence of its calls from program start, a seed
of `0` comes with an unclaimed guard. -/
theorem json_object_seed_truncates_candidate (cfg : Config) (fuel : Nat) (g : Shared)
    (s : Nat) (env : Env) (h0 : g.hashtable_seed = 0) :
    (g.seed_initialized = 0 →
      (∃ gA, json_object_seed_A cfg (fuel + 4) g s env = some gA ∧
        gA.hashtable_seed = (if s % 2 ^ 32 = 0 then generate_seed cfg env else s % 2 ^ 32) ∧
        gA.gen_calls = (if s % 2 ^ 32 = 0 then g.gen_calls + 1 else g.gen_calls)) ∧
      json_object_seed_A cfg (fuel + 4) g (2 ^ 32) env
        = json_object_seed_A cfg (fuel + 4) g 0 env ∧
      (∃ gA, json_object_seed_A cfg (fuel + 4) g (2 ^ 32) env = some gA ∧
        gA.hashtable_seed = generate_seed cfg env ∧ gA.hashtable_seed ≠ 2 ^ 32)) ∧
    ((∃ gB, json_object_seed_B cfg (fuel + 4) g s env = some gB ∧
        gB.hashtable_seed = (if s % 2 ^ 32 = 0 then generate_seed cfg env else s % 2 ^ 32) ∧
        gB.gen_calls = (if s % 2 ^ 32 = 0 then g.gen_calls + 1 else g.gen_calls)) ∧
      json_object_seed_B cfg (fuel + 4) g (2 ^ 32) env
        = json_object_seed_B cfg (fuel + 4) g 0 env ∧
      (∃ gB, json_object_seed_B cfg (fuel + 4) g (2 ^ 32) env = some gB ∧
        gB.hashtable_seed = generate_seed cfg env ∧ gB.hashtable_seed ≠ 2 ^ 32)) ∧
    ((json_object_seed_C cfg g s env).hashtable_seed
        = (if s % 2 ^ 32 = 0 then generate_seed cfg env else s % 2 ^ 32) ∧
      (json_object_seed_C cfg g s env).gen_calls
        = (if s % 2 ^ 32 = 0 then g.gen_calls + 1 else g.gen_calls) ∧
      json_object_seed_C cfg g (2 ^ 32) env = json_object_seed_C cfg g 0 env ∧
      (json_object_seed_C cfg g (2 ^ 32) env).hashtable_seed = generate_seed cfg env ∧
      (json_object_seed_C cfg g (2 ^ 32) env).hashtable_seed ≠ 2 ^ 32) ∧
    (∀ (calls : List (Nat × Env)) (gA : Shared),
      seqA cfg (fuel + 4) Shared.init calls = some gA →
      gA.hashtable_seed = 0 → gA.seed_initialized = 0) := by
  have hne : generate_seed cfg env ≠ 2 ^ 32 := Nat.ne_of_lt (generate_seed_lt cfg env)
  have hm : (2 ^ 32 : Nat) % UINT32_MOD = 0 := by decide
  have hm0 : (0 : Nat) % UINT32_MOD = 0 := by decide
  have hsingle : ∀ (calls : List (Nat × Env)) (gA : Shared),
      seqA cfg (fuel + 4) Shared.init calls = some gA →
      gA.hashtable_seed = 0 → gA.seed_initialized = 0 := by
    intro calls gA hrun hz
    obtain ⟨gA1, gB1, hA, _, hag⟩ := seq_agree cfg fuel calls Shared.init Shared.init
      Shared.init ⟨rfl, rfl, rfl, rfl, by decide, rfl, rfl, fun _ => ⟨rfl, rfl⟩⟩
    rw [hrun] at hA
    cases hA
    exact (hag.2.2.2.2.2.2.2 (by rw [← hag.1]; exact hz)).1
  refine ⟨?_, ⟨?_, ?_, ?_⟩, ⟨?_, ?_, ?_, ?_, ?_⟩, hsingle⟩
  · intro hg
    refine ⟨?_, ?_, ?_⟩
    · rw [json_object_seed_A_first cfg fuel g s env h0 hg]
      exact ⟨_, rfl, rfl, rfl⟩
    · rw [json_object_seed_A_first cfg fuel g _ env h0 hg,
        json_object_seed_A_first cfg fuel g _ env h0 hg]
      simp only [hm, hm0]
    · rw [json_object_seed_A_first cfg fuel g _ env h0 hg]
      simp only [hm, if_true]
      exact ⟨_, rfl, rfl, hne⟩
  · rw [json_object_seed_B_first cfg (fuel + 1) g s env h0]
    exact ⟨_, rfl, rfl, rfl⟩
  · rw [json_object_seed_B_first cfg (fuel + 1) g _ env h0,
      json_object_seed_B_first cfg (fuel + 1) g _ env h0]
    simp only [hm, hm0]
  · rw [json_object_seed_B_first cfg (fuel + 1) g _ env h0]
    simp only [hm, if_true]
    exact ⟨_, rfl, rfl, hne⟩
  · rw [json_object_seed_C_first cfg g s env h0]; rfl
  · rw [json_object_seed_C_first cfg g s env h0]; rfl
  · rw [json_object_seed_C_first cfg g _ env h0, json_object_seed_C_first cfg g _ env h0]
    simp only [hm, hm0]
  · rw [json_object_seed_C_first cfg g _ env h0]
    simp only [hm, if_true]
  · rw [json_object_seed_C_first cfg g _ env h0]
    simp only [hm, if_true]
    exact hne

/-- C10 at the candidates `2^32 + 5` and `2^32` from the initial state. -/
theorem json_object_seed_truncates_candidate_witness :
    (json_object_seed_C cfgFull Shared.init (2 ^ 32 + 5) envBytes).hashtable_seed = 5 ∧
    (json_object_seed_C cfgFull Shared.init (2 ^ 32) envBytes).hashtable_seed = 0x01020304 ∧
    json_object_seed_A cfgFull 4 Shared.init (2 ^ 32) envBytes
      = json_object_seed_A cfgFull 4 Shared.init 0 envBytes := by
  have h1 := json_object_seed_truncates_candidate cfgFull 0 Shared.init (2 ^ 32 + 5) envBytes rfl
  refine ⟨?_, ?_, (h1.1 rfl).2.1⟩
  · rw [h1.2.2.1.1]; decide
  · rw [h1.2.2.1.2.2.2.1]; decide

/-- C9: for every finite sequence of calls (arbitrary candidates, given
operating-system answers) run by one thread from the initial state, the three
variants all return from every call (four steps of fuel per call suffice),
never enter a waiting branch, call `generate_seed` the same number of times,
at most once in total, and leave the same `hashtable_seed`; as the sequence is
arbitrary this holds after every call of a longer sequence. -/
theorem json_object_seed_variants_agree (cfg : Config) (fuel : Nat)
    (calls : List (Nat × Env)) :
    ∃ gA gB, seqA cfg (fuel + 4) Shared.init calls = some gA ∧
      seqB cfg (fuel + 4) Shared.init calls = some gB ∧
      gA.hashtable_seed = (seqC cfg Shared.init calls).hashtable_seed ∧
      gB.hashtable_seed = (seqC cfg Shared.init calls).hashtable_seed ∧
      gA.gen_calls = (seqC cfg Shared.init calls).gen_calls ∧
      gB.gen_calls = (seqC cfg Shared.init calls).gen_calls ∧
      (seqC cfg Shared.init calls).gen_calls ≤ 1 ∧
      gA.waits = 0 ∧ gB.waits = 0 := by
  obtain ⟨gA, gB, hA, hB, h⟩ := seq_agree cfg fuel calls Shared.init Shared.init Shared.init
    ⟨rfl, rfl, rfl, rfl, by decide, rfl, rfl, fun _ => ⟨rfl, rfl⟩⟩
  exact ⟨gA, gB, hA, hB, h.1, h.2.1, h.2.2.1, h.2.2.2.1, h.2.2.2.2.1, h.2.2.2.2.2.1,
    h.2.2.2.2.2.2.1⟩

/-! ## The claims about concurrent callers -/

/-- C1: whenever a call of `json_object_seed` has returned, `hashtable_seed`
is not `0`.  For the `HAVE_ATOMIC_BUILTINS` and `HAVE_SYNC_BUILTINS` variants:
in every state reached from program start by any schedule of `N` threads with
any candidates and any operating-system answers, a thread that has returned
from a call sees a non-zero seed.  For the thread-unsafe variant: after a call
from any state, with any candidate and any answers, the seed is not `0`. -/
theorem json_object_seed_returned_nonzero (cfg : Config) (N : Nat) :
    (∀ (sched : List Label) (i : Nat),
      0 < ((runA cfg N StateA.init sched).threads i).returned →
      (runA cfg N StateA.init sched).g.hashtable_seed ≠ 0) ∧
    (∀ (sched : List Label) (i : Nat),
      0 < ((runB cfg N StateB.init sched).threads i).returned →
      (runB cfg N StateB.init sched).g.hashtable_seed ≠ 0) ∧
    (∀ (g : Shared) (seed : Nat) (env : Env),
      (json_object_seed_C cfg g seed env).hashtable_seed ≠ 0) := by
  refine ⟨?_, ?_, ?_⟩
  · intro sched i hi
    exact ((InvA_run cfg N sched _ InvA_init).loc i).2.2.2.2 hi
  · intro sched i hi
    exact ((InvB_run cfg N sched _ (InvB_init cfg N)).loc i).2.2 hi
  · intro g seed env
    by_cases h : g.hashtable_seed = 0
    · rw [json_object_seed_C_first cfg g seed env h]
      exact installed_ne_zero cfg seed env
    · rw [json_object_seed_C_set cfg g seed env h]
      exact h

/-- C1 at two schedules of two threads in which thread 0 has returned, and at
a call of the thread-unsafe variant whose `generate_seed` reads four zero
bytes. -/
theorem json_object_seed_returned_nonzero_witness :
    0 < ((runA cfgFull 2 StateA.init schedA).threads 0).returned ∧
    (runA cfgFull 2 StateA.init schedA).g.hashtable_seed ≠ 0 ∧
    0 < ((runB cfgFull 2 StateB.init schedB).threads 0).returned ∧
    (runB cfgFull 2 StateB.init schedB).g.hashtable_seed ≠ 0 ∧
    (json_object_seed_C cfgFull Shared.init 0 envZero).hashtable_seed ≠ 0 :=
  ⟨by decide,
    (json_object_seed_returned_nonzero cfgFull 2).1 schedA 0 (by decide),
    by decide,
    (json_object_seed_returned_nonzero cfgFull 2).2.1 schedB 0 (by decide),
    (json_object_seed_returned_nonzero cfgFull 2).2.2 Shared.init 0 envZero⟩

/-- C7: in every state reached from program start by any schedule of `N`
threads of the `HAVE_ATOMIC_BUILTINS` variant, at most one test-and-set has
won, at most one thread is in the seeding branch, `hashtable_seed` has been
stored at most once, `generate_seed` has been called at most once, and if
`hashtable_seed` is non-zero it has the same value after any further steps. -/
theorem json_object_seed_A_single_writer (cfg : Config) (N : Nat) (sched : List Label) :
    (runA cfg N StateA.init sched).g.tas_wins ≤ 1 ∧
    (∀ i j, critA ((runA cfg N StateA.init sched).threads i).pc →
      critA ((runA cfg N StateA.init sched).threads j).pc → i = j) ∧
    (runA cfg N StateA.init sched).g.seed_writes ≤ 1 ∧
    (runA cfg N StateA.init sched).g.gen_calls ≤ 1 ∧
    ((runA cfg N StateA.init sched).g.hashtable_seed ≠ 0 →
      ∀ more : List Label,
        (runA cfg N (runA cfg N StateA.init sched) more).g.hashtable_seed
          = (runA cfg N StateA.init sched).g.hashtable_seed) := by
  have h := InvA_run cfg N sched _ InvA_init
  have hg := h.glob
  simp only [GlobA] at hg
  exact ⟨hg.1, h.uniq, hg.2.2.2.2.2.1, hg.2.2.2.2.1,
    fun hnz more => runA_seed_stable cfg N more _ h hnz⟩

/-- C7 at a schedule of two threads after which the seed is `9`, continued
by two further calls with other candidates. -/
theorem json_object_seed_A_single_writer_witness :
    (runA cfgFull 2 StateA.init schedA).g.hashtable_seed ≠ 0 ∧
    (runA cfgFull 2 (runA cfgFull 2 StateA.init schedA)
        [⟨0, 5, envBytes⟩, ⟨1, 0, envBytes⟩]).g.hashtable_seed
      = (runA cfgFull 2 StateA.init schedA).g.hashtable_seed ∧
    (runA cfgFull 2 StateA.init schedA).g.seed_writes ≤ 1 :=
  ⟨by decide,
    (json_object_seed_A_single_writer cfgFull 2 schedA).2.2.2.2 (by decide) _,
    (json_object_seed_A_single_writer cfgFull 2 schedA).2.2.1⟩

/-- C8, as stated, fails: a thread that enters with the non-zero candidate
`2^32 + 8` succeeds in its compare-and-swap and installs `8`, which is
neither its candidate nor a result of `generate_seed` (none was called). -/
theorem json_object_seed_B_installs_reduced_candidate :
    (runB cfgFull 1 StateB.init schedTrunc).g.hashtable_seed = 8 ∧
    (runB cfgFull 1 StateB.init schedTrunc).g.gen_calls = 0 ∧
    (runB cfgFull 1 StateB.init schedTrunc).g.cas_wins = 1 ∧
    (runB cfgFull 1 StateB.init schedTrunc).cas_log.map
        (fun r => (r.1, r.2.seed, r.2.new_seed, r.2.gen_env.isSome))
      = [(0, 2 ^ 32 + 8, 8, false)] ∧
    (2 ^ 32 + 8 : Nat) ≠ 0 ∧ (8 : Nat) ≠ 2 ^ 32 + 8 := by
  decide

/-- C8, amended: in every state reached from program start by any schedule
of `N` threads of the `HAVE_SYNC_BUILTINS` variant, at most one compare-and-swap has
succeeded and each success is recorded; either `hashtable_seed` is `0` and
none succeeded, or exactly one thread `i < N` succeeded and `hashtable_seed`
is the `new_seed` that thread held, which is its candidate modulo `2^32`
when that is non-zero and otherwise the result of the `generate_seed` call
that thread made; and a non-zero `hashtable_seed` has the same value, with
the same record, after any further steps. -/
theorem json_object_seed_B_keeps_one (cfg : Config) (N : Nat) (sched : List Label) :
    (runB cfg N StateB.init sched).g.cas_wins ≤ 1 ∧
    (runB cfg N StateB.init sched).cas_log.length
      = (runB cfg N StateB.init sched).g.cas_wins ∧
    (((runB cfg N StateB.init sched).g.hashtable_seed = 0 ∧
        (runB cfg N StateB.init sched).cas_log = []) ∨
      ∃ (i : Nat) (t : ThreadB), (runB cfg N StateB.init sched).cas_log = [(i, t)] ∧
        i < N ∧ (runB cfg N StateB.init sched).g.hashtable_seed = t.new_seed ∧
        ((t.seed % 2 ^ 32 ≠ 0 ∧ t.new_seed = t.seed % 2 ^ 32 ∧ t.gen_env = none) ∨
         (t.seed % 2 ^ 32 = 0 ∧
           ∃ env, t.gen_env = some env ∧ t.new_seed = generate_seed cfg env))) ∧
    ((runB cfg N StateB.init sched).g.hashtable_seed ≠ 0 →
      ∀ more : List Label,
        (runB cfg N (runB cfg N StateB.init sched) more).g.hashtable_seed
          = (runB cfg N StateB.init sched).g.hashtable_seed ∧
        (runB cfg N (runB cfg N StateB.init sched) more).cas_log
          = (runB cfg N StateB.init sched).cas_log) := by
  have h := InvB_run cfg N sched _ (InvB_init cfg N)
  have hg := h.glob
  simp only [GlobB] at hg
  refine ⟨hg.1, h.log_len, ?_, fun hnz more => runB_seed_stable cfg N more _ hnz⟩
  have hlen := h.log_len
  have hlog := h.log
  generalize runB cfg N StateB.init sched = s at hg hlen hlog
  match hL : s.cas_log with
  | [] =>
    left
    rw [hL] at hlen
    exact ⟨hg.2.2.1 hlen.symm, rfl⟩
  | [r] =>
    right
    have hr := hlog r (by rw [hL]; exact List.mem_singleton_self r)
    exact ⟨r.1, r.2, rfl, hr.1, hr.2.1.symm, hr.2.2.2⟩
  | r1 :: r2 :: rest =>
    rw [hL] at hlen
    simp only [List.length_cons] at hlen
    omega

/-- C8 at a schedule of two threads that both run `generate_seed`: the
compare-and-swap of thread 1 succeeds and the seed is, and stays, the value
`1` that thread 1 generated. -/
theorem json_object_seed_B_keeps_one_witness :
    (runB cfgFull 2 StateB.init schedB).g.hashtable_seed = 1 ∧
    (runB cfgFull 2 StateB.init schedB).g.gen_calls = 2 ∧
    (runB cfgFull 2 StateB.init schedB).g.cas_wins ≤ 1 ∧
    (runB cfgFull 2 (runB cfgFull 2 StateB.init schedB)
        [⟨0, 5, envBytes⟩, ⟨1, 0, envBytes⟩]).g.hashtable_seed
      = (runB cfgFull 2 StateB.init schedB).g.hashtable_seed :=
  ⟨by decide, by decide,
    (json_object_seed_B_keeps_one cfgFull 2 schedB).1,
    ((json_object_seed_B_keeps_one cfgFull 2 schedB).2.2.2 (by decide) _).1⟩

end HashtableSeed
